import Mathlib

/-!
# Account hierarchy of `oop_code.cpp`

A shallow embedding of the classes `Account`, `SavingsAccount`, `CheckingAccount`,
`PremiumAccount` and `Bank` of `src/oop_code.cpp`, followed by theorems about them.

Modelling conventions
* The classes are embedded twice. The first embedding reads `double` as the exact
  rationals `ℚ`; it carries the properties that rest on comparisons, on which members a
  function assigns, on monotone updates and on figures that `double` holds exactly. The
  second embedding, in namespace `Fp`, reads `double` as IEEE 754 binary64 (round to
  nearest, ties to even, gradual underflow, overflow to the infinities, NaN); it carries
  the properties that depend on how a sum, difference, product or quotient is rounded.
* `int` is modelled by `Int`; the two `++`/`--` sites wrap to the 32-bit two's-complement
  range through `wrapInt`.  (Signed overflow is undefined in C++; theorems about counters
  carry the bound under which the increment is defined.)
* `std::string` is modelled by `String`.
* A C++ object is a record; derived classes extend the record of their base class, and a
  member function is a function from the object (and its arguments) to the returned value
  and the object afterwards.  The static member `Account::totalAccounts` is threaded
  explicitly through constructors and the destructor.
* Writes to `cout` are not part of the model.
-/

namespace OopCode

/-! ## Machine integers -/

/-- Largest value of a 32-bit `int`. -/
def INT_MAX : Int := 2147483647

/-- Smallest value of a 32-bit `int`. -/
def INT_MIN : Int := -2147483648

/-- Two's-complement reduction of an integer to the 32-bit `int` range. -/
def wrapInt (z : Int) : Int := (z + 2147483648) % 4294967296 - 2147483648

/-! ## class Account -/

/-- Data members of `class Account` (lines 10-14). -/
structure Account where
  accountNumber : Int
  accountHolderName : String
  balance : ℚ
  deriving DecidableEq, Repr

namespace Account

/-- Line 112: `int Account::totalAccounts = 0;` -/
def totalAccountsInit : Int := 0

/-- Default constructor (lines 20-26): the new object and the counter afterwards. -/
def default (totalAccounts : Int) : Account × Int :=
  ({ accountNumber := 0, accountHolderName := "Unknown", balance := 0 },
   wrapInt (totalAccounts + 1))

/-- Parameterized constructor (lines 29-35). -/
def parameterized (accNum : Int) (name : String) (bal : ℚ) (totalAccounts : Int) :
    Account × Int :=
  ({ accountNumber := accNum, accountHolderName := name, balance := bal },
   wrapInt (totalAccounts + 1))

/-- Copy constructor (lines 38-44). -/
def copy (other : Account) (totalAccounts : Int) : Account × Int :=
  ({ accountNumber := other.accountNumber,
     accountHolderName := other.accountHolderName,
     balance := other.balance },
   wrapInt (totalAccounts + 1))

/-- Destructor `~Account` (lines 47-50): the counter afterwards. -/
def destroy (_self : Account) (totalAccounts : Int) : Int :=
  wrapInt (totalAccounts - 1)

/-- One-argument `deposit(double amount)` (lines 53-58). -/
def deposit (self : Account) (amount : ℚ) : Account :=
  if amount > 0 then { self with balance := self.balance + amount } else self

/-- Two-argument `deposit(double amount, string description)` (lines 60-65). -/
def depositDesc (self : Account) (amount : ℚ) (_description : String) : Account :=
  if amount > 0 then { self with balance := self.balance + amount } else self

/-- Base `withdraw(double amount)` (lines 68-76): the returned flag and the object afterwards. -/
def withdraw (self : Account) (amount : ℚ) : Bool × Account :=
  if amount > 0 ∧ self.balance ≥ amount then
    (true, { self with balance := self.balance - amount })
  else
    (false, self)

/-- Line 90. -/
def getAccountNumber (self : Account) : Int := self.accountNumber

/-- Line 91. -/
def getAccountHolderName (self : Account) : String := self.accountHolderName

/-- Line 92. -/
def getBalance (self : Account) : ℚ := self.balance

/-- Line 95. -/
def setAccountHolderName (self : Account) (name : String) : Account :=
  { self with accountHolderName := name }

/-- Static `getTotalAccounts()` (lines 106-108). -/
def getTotalAccounts (totalAccounts : Int) : Int := totalAccounts

end Account

/-! ## class SavingsAccount : public Account -/

/-- Data members of `class SavingsAccount` (lines 119-120) on top of its `Account` base. -/
structure SavingsAccount extends Account where
  interestRate : ℚ
  minimumBalance : ℚ
  deriving DecidableEq, Repr

namespace SavingsAccount

/-- Constructor (lines 124-127): runs the parameterized `Account` constructor, then
initialises `interestRate(rate)` and `minimumBalance(1000.0)`. -/
def new (accNum : Int) (name : String) (bal rate : ℚ) (totalAccounts : Int) :
    SavingsAccount × Int :=
  let base := Account.parameterized accNum name bal totalAccounts
  ({ toAccount := base.1, interestRate := rate, minimumBalance := 1000 }, base.2)

/-- Implicit copy constructor: copies the base through `Account`'s copy constructor and
the two members memberwise (used at line 343). -/
def copy (other : SavingsAccount) (totalAccounts : Int) : SavingsAccount × Int :=
  let base := Account.copy other.toAccount totalAccounts
  ({ toAccount := base.1, interestRate := other.interestRate,
     minimumBalance := other.minimumBalance }, base.2)

/-- Destructor (lines 130-132) followed by the base destructor. -/
def destroy (self : SavingsAccount) (totalAccounts : Int) : Int :=
  Account.destroy self.toAccount totalAccounts

/-- Override `calculateInterest()` (lines 135-139): the returned interest and the object
afterwards. -/
def calculateInterest (self : SavingsAccount) : ℚ × SavingsAccount :=
  let interest := self.balance * self.interestRate / 100
  (interest, self)

/-- Override `withdraw(double amount)` (lines 150-158). -/
def withdraw (self : SavingsAccount) (amount : ℚ) : Bool × SavingsAccount :=
  if self.balance - amount ≥ self.minimumBalance then
    (true, { self with balance := self.balance - amount })
  else
    (false, self)

/-- Inherited one-argument `Account::deposit` acting on the base subobject. -/
def deposit (self : SavingsAccount) (amount : ℚ) : SavingsAccount :=
  { self with toAccount := self.toAccount.deposit amount }

/-- Inherited two-argument `Account::deposit` acting on the base subobject. -/
def depositDesc (self : SavingsAccount) (amount : ℚ) (description : String) :
    SavingsAccount :=
  { self with toAccount := self.toAccount.depositDesc amount description }

/-- Line 161. -/
def getInterestRate (self : SavingsAccount) : ℚ := self.interestRate

/-- Setter `setInterestRate(double rate)` (lines 164-168). -/
def setInterestRate (self : SavingsAccount) (rate : ℚ) : SavingsAccount :=
  if rate ≥ 0 then { self with interestRate := rate } else self

end SavingsAccount

/-! ## class CheckingAccount : public Account -/

/-- Data members of `class CheckingAccount` (lines 176-177) on top of its `Account` base. -/
structure CheckingAccount extends Account where
  overdraftLimit : ℚ
  transactionCount : Int
  deriving DecidableEq, Repr

namespace CheckingAccount

/-- Constructor (lines 181-184): runs the parameterized `Account` constructor, then
initialises `overdraftLimit(overdraft)` and `transactionCount(0)`. -/
def new (accNum : Int) (name : String) (bal overdraft : ℚ) (totalAccounts : Int) :
    CheckingAccount × Int :=
  let base := Account.parameterized accNum name bal totalAccounts
  ({ toAccount := base.1, overdraftLimit := overdraft, transactionCount := 0 }, base.2)

/-- Implicit copy constructor: base through `Account`'s copy constructor, members
memberwise. -/
def copy (other : CheckingAccount) (totalAccounts : Int) : CheckingAccount × Int :=
  let base := Account.copy other.toAccount totalAccounts
  ({ toAccount := base.1, overdraftLimit := other.overdraftLimit,
     transactionCount := other.transactionCount }, base.2)

/-- Destructor (lines 187-189) followed by the base destructor. -/
def destroy (self : CheckingAccount) (totalAccounts : Int) : Int :=
  Account.destroy self.toAccount totalAccounts

/-- Override `calculateInterest()` (lines 192-196): the returned interest and the object
afterwards. -/
def calculateInterest (self : CheckingAccount) : ℚ × CheckingAccount :=
  let interest := self.balance * 0.5 / 100
  (interest, self)

/-- Override `withdraw(double amount)` (lines 207-216). -/
def withdraw (self : CheckingAccount) (amount : ℚ) : Bool × CheckingAccount :=
  if amount > 0 ∧ (self.balance + self.overdraftLimit) ≥ amount then
    (true, { self with balance := self.balance - amount,
                       transactionCount := wrapInt (self.transactionCount + 1) })
  else
    (false, self)

/-- Qualified call `Account::deposit(amount)` on the base subobject, as reached through an
`Account*` or from line 219. -/
def baseDeposit (self : CheckingAccount) (amount : ℚ) : CheckingAccount :=
  { self with toAccount := self.toAccount.deposit amount }

/-- Two-argument `Account::deposit` on the base subobject, as reached through an
`Account*` (line 288). -/
def depositDesc (self : CheckingAccount) (amount : ℚ) (description : String) :
    CheckingAccount :=
  { self with toAccount := self.toAccount.depositDesc amount description }

/-- Member `CheckingAccount::deposit(double amount)` (lines 218-221). -/
def deposit (self : CheckingAccount) (amount : ℚ) : CheckingAccount :=
  let afterBase := self.baseDeposit amount
  { afterBase with transactionCount := wrapInt (afterBase.transactionCount + 1) }

end CheckingAccount

/-! ## class PremiumAccount : public SavingsAccount -/

/-- Data members of `class PremiumAccount` (lines 229-230) on top of its `SavingsAccount`
base. -/
structure PremiumAccount extends SavingsAccount where
  bonusRate : ℚ
  hasConciergeService : Bool
  deriving DecidableEq, Repr

namespace PremiumAccount

/-- Constructor (lines 234-237): runs the `SavingsAccount` constructor, then initialises
`bonusRate(bonus)` and `hasConciergeService(true)`. -/
def new (accNum : Int) (name : String) (bal rate bonus : ℚ) (totalAccounts : Int) :
    PremiumAccount × Int :=
  let base := SavingsAccount.new accNum name bal rate totalAccounts
  ({ toSavingsAccount := base.1, bonusRate := bonus, hasConciergeService := true }, base.2)

/-- Implicit copy constructor. -/
def copy (other : PremiumAccount) (totalAccounts : Int) : PremiumAccount × Int :=
  let base := SavingsAccount.copy other.toSavingsAccount totalAccounts
  ({ toSavingsAccount := base.1, bonusRate := other.bonusRate,
     hasConciergeService := other.hasConciergeService }, base.2)

/-- Destructor (lines 240-242) followed by the base destructors. -/
def destroy (self : PremiumAccount) (totalAccounts : Int) : Int :=
  SavingsAccount.destroy self.toSavingsAccount totalAccounts

/-- Override `calculateInterest()` (lines 245-252): the returned interest and the object
afterwards. -/
def calculateInterest (self : PremiumAccount) : ℚ × PremiumAccount :=
  let baseInterest :=
    self.toAccount.getBalance * self.toSavingsAccount.getInterestRate / 100
  let bonusInterest := self.toAccount.getBalance * self.bonusRate / 100
  let totalInterest := baseInterest + bonusInterest
  (totalInterest, self)

/-- Inherited `SavingsAccount::withdraw` acting on the base subobject. -/
def withdraw (self : PremiumAccount) (amount : ℚ) : Bool × PremiumAccount :=
  let r := self.toSavingsAccount.withdraw amount
  (r.1, { self with toSavingsAccount := r.2 })

/-- Inherited one-argument `Account::deposit`. -/
def deposit (self : PremiumAccount) (amount : ℚ) : PremiumAccount :=
  { self with toSavingsAccount := self.toSavingsAccount.deposit amount }

/-- Inherited two-argument `Account::deposit`. -/
def depositDesc (self : PremiumAccount) (amount : ℚ) (description : String) :
    PremiumAccount :=
  { self with toSavingsAccount := self.toSavingsAccount.depositDesc amount description }

/-- Inherited `SavingsAccount::setInterestRate`. -/
def setInterestRate (self : PremiumAccount) (rate : ℚ) : PremiumAccount :=
  { self with toSavingsAccount := self.toSavingsAccount.setInterestRate rate }

/-- Member `activateConcierge()` (lines 262-265). -/
def activateConcierge (self : PremiumAccount) : PremiumAccount :=
  { self with hasConciergeService := true }

end PremiumAccount

/-! ## Dynamic dispatch through `Account*` -/

/-- The object behind an `Account*`: one of the three concrete classes (`Account` itself has
a pure virtual member). -/
inductive AccountRef where
  | savings (s : SavingsAccount)
  | checking (c : CheckingAccount)
  | premium (p : PremiumAccount)
  deriving DecidableEq, Repr

namespace AccountRef

/-- The `Account` base subobject. -/
def toAccount : AccountRef → Account
  | savings s => s.toAccount
  | checking c => c.toAccount
  | premium p => p.toAccount

/-- The call `account->getBalance()`. -/
def getBalance (a : AccountRef) : ℚ := a.toAccount.getBalance

/-- Virtual call `account->calculateInterest()`. -/
def calculateInterest : AccountRef → ℚ × AccountRef
  | savings s => (s.calculateInterest.1, savings s.calculateInterest.2)
  | checking c => (c.calculateInterest.1, checking c.calculateInterest.2)
  | premium p => (p.calculateInterest.1, premium p.calculateInterest.2)

/-- Virtual call `account->withdraw(amount)`. -/
def withdraw : AccountRef → ℚ → Bool × AccountRef
  | savings s, amount => ((s.withdraw amount).1, savings (s.withdraw amount).2)
  | checking c, amount => ((c.withdraw amount).1, checking (c.withdraw amount).2)
  | premium p, amount => ((p.withdraw amount).1, premium (p.withdraw amount).2)

/-- Non-virtual call `account->deposit(amount)`: resolved statically to `Account::deposit`. -/
def deposit : AccountRef → ℚ → AccountRef
  | savings s, amount => savings (s.deposit amount)
  | checking c, amount => checking (c.baseDeposit amount)
  | premium p, amount => premium (p.deposit amount)

/-- Non-virtual call `account->deposit(amount, description)`: resolved statically to the
two-argument `Account::deposit`. -/
def depositDesc : AccountRef → ℚ → String → AccountRef
  | savings s, amount, d => savings (s.depositDesc amount d)
  | checking c, amount, d => checking (c.depositDesc amount d)
  | premium p, amount, d => premium (p.depositDesc amount d)

end AccountRef

/-! ## class Bank -/

/-- Data member of `class Bank` (line 273). -/
structure Bank where
  bankName : String
  deriving DecidableEq, Repr

namespace Bank

/-- Member `processInterest(Account* account)` (lines 285-289): the pointed-to object
afterwards. -/
def processInterest (_self : Bank) (account : AccountRef) : AccountRef :=
  let computed := account.calculateInterest
  let interest := computed.1
  computed.2.depositDesc interest "Interest Credit"

end Bank

/-! ## The combination operator -/

namespace Account

/-- Outcome of `operator+`: the returned object, the left operand `*this` afterwards (the
member is not `const`; the right operand is a `const&`), and the counter afterwards. -/
structure Combined where
  value : Account
  self : Account
  totalAccounts : Int
  deriving DecidableEq, Repr

/-- Member `operator+(const Account& other)` (lines 98-103) with the returned object built
in place (the local `temp` is the result object). As written the member creates an object
of the abstract class `Account`, which no compiler accepts; the definition records what
its statements say, for the construction event of the counter. -/
def operatorPlus (self other : Account) (totalAccounts : Int) : Combined :=
  let temp := Account.default totalAccounts
  let temp1 : Account := { temp.1 with balance := self.balance + other.balance }
  let temp2 : Account :=
    { temp1 with
      accountHolderName := self.accountHolderName ++ " & " ++ other.accountHolderName }
  { value := temp2, self := self, totalAccounts := temp.2 }

end Account

/-! ## Object lifetime and the static counter -/

/-- An object whose lifetime is counted by `Account::totalAccounts`, with its dynamic class. -/
inductive Instance where
  | account (a : Account)
  | savings (s : SavingsAccount)
  | checking (c : CheckingAccount)
  | premium (p : PremiumAccount)
  deriving DecidableEq, Repr

/-- The moments at which an object comes into or goes out of existence. -/
inductive LifeEvent where
  | accountDefault
  | accountParameterized (accNum : Int) (name : String) (bal : ℚ)
  | accountCopy (other : Account)
  | savingsNew (accNum : Int) (name : String) (bal rate : ℚ)
  | savingsCopy (other : SavingsAccount)
  | checkingNew (accNum : Int) (name : String) (bal overdraft : ℚ)
  | checkingCopy (other : CheckingAccount)
  | premiumNew (accNum : Int) (name : String) (bal rate bonus : ℚ)
  | premiumCopy (other : PremiumAccount)
  | combine (a b : Account)
  | destroy (obj : Instance)
  deriving DecidableEq, Repr

namespace LifeEvent

/-- Whether the event brings an object into existence. -/
def isConstruction : LifeEvent → Bool
  | destroy _ => false
  | _ => true

/-- Whether the event ends the lifetime of an object. -/
def isDestruction : LifeEvent → Bool
  | destroy _ => true
  | _ => false

/-- Value of `Account::totalAccounts` after the event, from its value before it: the
counter component of the constructor or destructor that the event runs. -/
def step (totalAccounts : Int) : LifeEvent → Int
  | accountDefault => (Account.default totalAccounts).2
  | accountParameterized n name bal => (Account.parameterized n name bal totalAccounts).2
  | accountCopy other => (Account.copy other totalAccounts).2
  | savingsNew n name bal rate => (SavingsAccount.new n name bal rate totalAccounts).2
  | savingsCopy other => (SavingsAccount.copy other totalAccounts).2
  | checkingNew n name bal od => (CheckingAccount.new n name bal od totalAccounts).2
  | checkingCopy other => (CheckingAccount.copy other totalAccounts).2
  | premiumNew n name bal rate bonus =>
      (PremiumAccount.new n name bal rate bonus totalAccounts).2
  | premiumCopy other => (PremiumAccount.copy other totalAccounts).2
  | combine a b => (Account.operatorPlus a b totalAccounts).totalAccounts
  | destroy (Instance.account a) => Account.destroy a totalAccounts
  | destroy (Instance.savings s) => SavingsAccount.destroy s totalAccounts
  | destroy (Instance.checking c) => CheckingAccount.destroy c totalAccounts
  | destroy (Instance.premium p) => PremiumAccount.destroy p totalAccounts

/-- Value of the counter after a sequence of events. -/
def run (totalAccounts : Int) : List LifeEvent → Int
  | [] => totalAccounts
  | e :: es => run (step totalAccounts e) es

/-- Number of constructions in a sequence of events. -/
def constructions (es : List LifeEvent) : Nat := es.countP isConstruction

/-- Number of destructions in a sequence of events. -/
def destructions (es : List LifeEvent) : Nat := es.countP isDestruction

/-- A sequence of events the program can go through when `live` objects exist at its
start: every destruction ends the lifetime of an object that exists at that moment, and
the number of existing objects stays within the range of `int`. -/
def admissible (live : Nat) : List LifeEvent → Bool
  | [] => true
  | e :: es =>
    if isConstruction e then
      decide ((live : Int) + 1 ≤ INT_MAX) && admissible (live + 1) es
    else
      decide (0 < live) && admissible (live - 1) es

end LifeEvent

/-! ## The inherited name setter -/

/-- Inherited `Account::setAccountHolderName` (line 95) acting on the base subobject. -/
def SavingsAccount.setAccountHolderName (self : SavingsAccount) (name : String) :
    SavingsAccount :=
  { self with toAccount := self.toAccount.setAccountHolderName name }

/-- Inherited `Account::setAccountHolderName` (line 95) acting on the base subobject. -/
def CheckingAccount.setAccountHolderName (self : CheckingAccount) (name : String) :
    CheckingAccount :=
  { self with toAccount := self.toAccount.setAccountHolderName name }

/-- Inherited `Account::setAccountHolderName` (line 95) acting on the base subobject. -/
def PremiumAccount.setAccountHolderName (self : PremiumAccount) (name : String) :
    PremiumAccount :=
  { self with toSavingsAccount := self.toSavingsAccount.setAccountHolderName name }

/-- The call `account->setAccountHolderName(name)` through an `Account*`. -/
def AccountRef.setAccountHolderName : AccountRef → String → AccountRef
  | AccountRef.savings s, name => AccountRef.savings (s.setAccountHolderName name)
  | AccountRef.checking c, name => AccountRef.checking (c.setAccountHolderName name)
  | AccountRef.premium p, name => AccountRef.premium (p.setAccountHolderName name)

/-! ## The objects of `main` -/

namespace Main

/-- Line 306: `SavingsAccount savings1(1001, "Alice Johnson", 5000.0, 4.5);` together with
the counter afterwards. -/
def savings1Built : SavingsAccount × Int :=
  SavingsAccount.new 1001 "Alice Johnson" 5000 4.5 Account.totalAccountsInit

/-- Line 307: `CheckingAccount checking1(2001, "Bob Smith", 3000.0, 500.0);` together with
the counter afterwards. -/
def checking1Built : CheckingAccount × Int :=
  CheckingAccount.new 2001 "Bob Smith" 3000 500 savings1Built.2

/-- Line 308: `PremiumAccount premium1(3001, "Charlie Brown", 10000.0, 5.0, 2.0);` together
with the counter afterwards. -/
def premium1Built : PremiumAccount × Int :=
  PremiumAccount.new 3001 "Charlie Brown" 10000 5 2 checking1Built.2

/-- The object `savings1` as constructed. -/
def savings1 : SavingsAccount := savings1Built.1

/-- The object `checking1` as constructed. -/
def checking1 : CheckingAccount := checking1Built.1

/-- The object `premium1` as constructed. -/
def premium1 : PremiumAccount := premium1Built.1

/-- Line 301: `Bank myBank("Global Bank");` -/
def myBank : Bank := { bankName := "Global Bank" }

end Main

/-! ## IEEE 754 binary64 -/

namespace Fp

/-- A value of type `double`: a finite number, an infinity or a NaN. The two zeros are one
value (they compare equal and the program never divides by a variable), and so are all
NaNs. A finite value that an operation returns is a binary64 number. -/
inductive Double where
  | finite (q : ℚ)
  | posInf
  | negInf
  | nan
  deriving DecidableEq, Repr

namespace Double

/-- Nearest integer, a tie going to the even neighbour. -/
def roundHalfEven (t : ℚ) : ℤ :=
  if t - ⌊t⌋ < 1 / 2 then ⌊t⌋
  else if t - ⌊t⌋ > 1 / 2 then ⌊t⌋ + 1
  else if ⌊t⌋ % 2 = 0 then ⌊t⌋ else ⌊t⌋ + 1

/-- Binary exponent of the binade of `x > 0`: the `e` with `2^e <= x < 2^(e+1)`, and the
least normal exponent `-1022` for everything below `2^(-1022)`. -/
def exponent (x : ℚ) : ℤ := max (Int.log 2 x) (-1022)

/-- Spacing of the binary64 numbers in the binade of `x`: 52 fraction bits below the
leading bit. -/
def quantum (x : ℚ) : ℚ := (2 : ℚ) ^ (exponent x - 52)

/-- Round `x >= 0` to the nearest multiple of the spacing of its binade, ties to even
(exponent range not yet bounded above). -/
def roundMagnitude (x : ℚ) : ℚ := (roundHalfEven (x / quantum x) : ℚ) * quantum x

/-- Overflow: a rounded magnitude of `2^1024` or more is an infinity. -/
def ofMagnitude (r : ℚ) : Double :=
  if r ≥ (2 : ℚ) ^ (1024 : ℕ) then posInf else finite r

/-- Unary minus. -/
def neg : Double → Double
  | finite q => finite (-q)
  | posInf => negInf
  | negInf => posInf
  | nan => nan

/-- The `double` nearest to a rational number (round to nearest, ties to even), which is
how every arithmetic result is stored. -/
def ofRat (q : ℚ) : Double :=
  if 0 ≤ q then ofMagnitude (roundMagnitude q)
  else neg (ofMagnitude (roundMagnitude (-q)))

/-- The operator `+` on `double`. -/
def add : Double → Double → Double
  | finite a, finite b => ofRat (a + b)
  | finite _, posInf => posInf
  | finite _, negInf => negInf
  | posInf, finite _ => posInf
  | posInf, posInf => posInf
  | posInf, negInf => nan
  | negInf, finite _ => negInf
  | negInf, posInf => nan
  | negInf, negInf => negInf
  | nan, _ => nan
  | _, nan => nan

/-- The operator `-` on `double`. -/
def sub (a b : Double) : Double := add a (neg b)

/-- The operator `*` on `double`. -/
def mul : Double → Double → Double
  | finite a, finite b => ofRat (a * b)
  | finite a, posInf => if a = 0 then nan else if 0 < a then posInf else negInf
  | finite a, negInf => if a = 0 then nan else if 0 < a then negInf else posInf
  | posInf, finite b => if b = 0 then nan else if 0 < b then posInf else negInf
  | negInf, finite b => if b = 0 then nan else if 0 < b then negInf else posInf
  | posInf, posInf => posInf
  | posInf, negInf => negInf
  | negInf, posInf => negInf
  | negInf, negInf => posInf
  | nan, _ => nan
  | _, nan => nan

/-- The operator `/` on `double`. A zero divisor is read as `+0.0` (the program divides by
the constant 100 only). -/
def div : Double → Double → Double
  | finite a, finite b =>
    if b = 0 then (if a = 0 then nan else if 0 < a then posInf else negInf)
    else ofRat (a / b)
  | finite _, posInf => finite 0
  | finite _, negInf => finite 0
  | posInf, finite b => if 0 ≤ b then posInf else negInf
  | negInf, finite b => if 0 ≤ b then negInf else posInf
  | posInf, posInf => nan
  | posInf, negInf => nan
  | negInf, posInf => nan
  | negInf, negInf => nan
  | nan, _ => nan
  | _, nan => nan

/-- The operator `<` on `double`: false as soon as an operand is a NaN. -/
def lt : Double → Double → Bool
  | finite a, finite b => decide (a < b)
  | finite _, posInf => true
  | finite _, negInf => false
  | posInf, _ => false
  | negInf, finite _ => true
  | negInf, posInf => true
  | negInf, negInf => false
  | negInf, nan => false
  | nan, _ => false
  | finite _, nan => false

/-- The operator `<=` on `double`: false as soon as an operand is a NaN. -/
def le : Double → Double → Bool
  | finite a, finite b => decide (a ≤ b)
  | finite _, posInf => true
  | finite _, negInf => false
  | posInf, posInf => true
  | posInf, finite _ => false
  | posInf, negInf => false
  | posInf, nan => false
  | negInf, finite _ => true
  | negInf, posInf => true
  | negInf, negInf => true
  | negInf, nan => false
  | nan, _ => false
  | finite _, nan => false

/-- The operator `>` on `double`. -/
def gt (a b : Double) : Bool := lt b a

/-- The operator `>=` on `double`. -/
def ge (a b : Double) : Bool := le b a

/-- Whether the value is a finite binary64 number: `std::isfinite`, and for the finite
values of the model that rounding leaves them as they are. -/
def isFinite : Double → Bool
  | finite q => decide (ofRat q = finite q)
  | _ => false

/-- Whether the value is one a `double` variable can hold: an infinity, a NaN, or a finite
number that rounding leaves as it is. -/
def isDouble : Double → Bool
  | finite q => decide (ofRat q = finite q)
  | _ => true

end Double

/-! ### The account classes over `double` -/

/-- Data members of `class Account` (lines 10-14). -/
structure Account where
  accountNumber : Int
  accountHolderName : String
  balance : Double
  deriving DecidableEq, Repr

namespace Account

/-- Parameterized constructor (lines 29-35): the new object and the counter afterwards. -/
def parameterized (accNum : Int) (name : String) (bal : Double) (totalAccounts : Int) :
    Account × Int :=
  ({ accountNumber := accNum, accountHolderName := name, balance := bal },
   wrapInt (totalAccounts + 1))

/-- One-argument `deposit(double amount)` (lines 53-58). -/
def deposit (self : Account) (amount : Double) : Account :=
  if Double.gt amount (Double.finite 0) then
    { self with balance := Double.add self.balance amount }
  else self

/-- Two-argument `deposit(double amount, string description)` (lines 60-65). -/
def depositDesc (self : Account) (amount : Double) (_description : String) : Account :=
  if Double.gt amount (Double.finite 0) then
    { self with balance := Double.add self.balance amount }
  else self

/-- Base `withdraw(double amount)` (lines 68-76): the returned flag and the object
afterwards. -/
def withdraw (self : Account) (amount : Double) : Bool × Account :=
  if Double.gt amount (Double.finite 0) && Double.ge self.balance amount then
    (true, { self with balance := Double.sub self.balance amount })
  else
    (false, self)

/-- Line 92. -/
def getBalance (self : Account) : Double := self.balance

end Account

/-- Data members of `class SavingsAccount` (lines 119-120) on top of its `Account` base. -/
structure SavingsAccount extends Account where
  interestRate : Double
  minimumBalance : Double
  deriving DecidableEq, Repr

namespace SavingsAccount

/-- Constructor (lines 124-127). -/
def new (accNum : Int) (name : String) (bal rate : Double) (totalAccounts : Int) :
    SavingsAccount × Int :=
  let base := Account.parameterized accNum name bal totalAccounts
  ({ toAccount := base.1, interestRate := rate, minimumBalance := Double.finite 1000 },
   base.2)

/-- Override `calculateInterest()` (lines 135-139): the returned interest and the object
afterwards. -/
def calculateInterest (self : SavingsAccount) : Double × SavingsAccount :=
  let interest := Double.div (Double.mul self.balance self.interestRate) (Double.finite 100)
  (interest, self)

/-- Override `withdraw(double amount)` (lines 150-158). -/
def withdraw (self : SavingsAccount) (amount : Double) : Bool × SavingsAccount :=
  if Double.ge (Double.sub self.balance amount) self.minimumBalance then
    (true, { self with balance := Double.sub self.balance amount })
  else
    (false, self)

/-- Inherited one-argument `Account::deposit` acting on the base subobject. -/
def deposit (self : SavingsAccount) (amount : Double) : SavingsAccount :=
  { self with toAccount := self.toAccount.deposit amount }

/-- Inherited two-argument `Account::deposit` acting on the base subobject. -/
def depositDesc (self : SavingsAccount) (amount : Double) (description : String) :
    SavingsAccount :=
  { self with toAccount := self.toAccount.depositDesc amount description }

/-- Line 161. -/
def getInterestRate (self : SavingsAccount) : Double := self.interestRate

/-- Setter `setInterestRate(double rate)` (lines 164-168). -/
def setInterestRate (self : SavingsAccount) (rate : Double) : SavingsAccount :=
  if Double.ge rate (Double.finite 0) then { self with interestRate := rate } else self

end SavingsAccount

/-- Data members of `class CheckingAccount` (lines 176-177) on top of its `Account` base. -/
structure CheckingAccount extends Account where
  overdraftLimit : Double
  transactionCount : Int
  deriving DecidableEq, Repr

namespace CheckingAccount

/-- Constructor (lines 181-184). -/
def new (accNum : Int) (name : String) (bal overdraft : Double) (totalAccounts : Int) :
    CheckingAccount × Int :=
  let base := Account.parameterized accNum name bal totalAccounts
  ({ toAccount := base.1, overdraftLimit := overdraft, transactionCount := 0 }, base.2)

/-- Override `calculateInterest()` (lines 192-196): the returned interest and the object
afterwards. -/
def calculateInterest (self : CheckingAccount) : Double × CheckingAccount :=
  let interest :=
    Double.div (Double.mul self.balance (Double.finite 0.5)) (Double.finite 100)
  (interest, self)

/-- Override `withdraw(double amount)` (lines 207-216). -/
def withdraw (self : CheckingAccount) (amount : Double) : Bool × CheckingAccount :=
  if Double.gt amount (Double.finite 0) &&
      Double.ge (Double.add self.balance self.overdraftLimit) amount then
    (true, { self with balance := Double.sub self.balance amount,
                       transactionCount := wrapInt (self.transactionCount + 1) })
  else
    (false, self)

/-- Qualified call `Account::deposit(amount)` on the base subobject, as reached through an
`Account*` or from line 219. -/
def baseDeposit (self : CheckingAccount) (amount : Double) : CheckingAccount :=
  { self with toAccount := self.toAccount.deposit amount }

/-- Two-argument `Account::deposit` on the base subobject, as reached through an
`Account*` (line 288). -/
def depositDesc (self : CheckingAccount) (amount : Double) (description : String) :
    CheckingAccount :=
  { self with toAccount := self.toAccount.depositDesc amount description }

/-- Member `CheckingAccount::deposit(double amount)` (lines 218-221). -/
def deposit (self : CheckingAccount) (amount : Double) : CheckingAccount :=
  let afterBase := self.baseDeposit amount
  { afterBase with transactionCount := wrapInt (afterBase.transactionCount + 1) }

end CheckingAccount

/-- Data members of `class PremiumAccount` (lines 229-230) on top of its `SavingsAccount`
base. -/
structure PremiumAccount extends SavingsAccount where
  bonusRate : Double
  hasConciergeService : Bool
  deriving DecidableEq, Repr

namespace PremiumAccount

/-- Constructor (lines 234-237). -/
def new (accNum : Int) (name : String) (bal rate bonus : Double) (totalAccounts : Int) :
    PremiumAccount × Int :=
  let base := SavingsAccount.new accNum name bal rate totalAccounts
  ({ toSavingsAccount := base.1, bonusRate := bonus, hasConciergeService := true }, base.2)

/-- Override `calculateInterest()` (lines 245-252): the returned interest and the object
afterwards. -/
def calculateInterest (self : PremiumAccount) : Double × PremiumAccount :=
  let baseInterest :=
    Double.div (Double.mul self.toAccount.getBalance self.toSavingsAccount.getInterestRate)
      (Double.finite 100)
  let bonusInterest :=
    Double.div (Double.mul self.toAccount.getBalance self.bonusRate) (Double.finite 100)
  let totalInterest := Double.add baseInterest bonusInterest
  (totalInterest, self)

/-- Inherited one-argument `Account::deposit`. -/
def deposit (self : PremiumAccount) (amount : Double) : PremiumAccount :=
  { self with toSavingsAccount := self.toSavingsAccount.deposit amount }

/-- Inherited two-argument `Account::deposit`. -/
def depositDesc (self : PremiumAccount) (amount : Double) (description : String) :
    PremiumAccount :=
  { self with toSavingsAccount := self.toSavingsAccount.depositDesc amount description }

/-- Inherited `SavingsAccount::setInterestRate`. -/
def setInterestRate (self : PremiumAccount) (rate : Double) : PremiumAccount :=
  { self with toSavingsAccount := self.toSavingsAccount.setInterestRate rate }

end PremiumAccount

/-- The object behind an `Account*`: one of the three concrete classes. -/
inductive AccountRef where
  | savings (s : SavingsAccount)
  | checking (c : CheckingAccount)
  | premium (p : PremiumAccount)
  deriving DecidableEq, Repr

namespace AccountRef

/-- The `Account` base subobject. -/
def toAccount : AccountRef → Account
  | savings s => s.toAccount
  | checking c => c.toAccount
  | premium p => p.toAccount

/-- The call `account->getBalance()`. -/
def getBalance (a : AccountRef) : Double := a.toAccount.getBalance

/-- Virtual call `account->calculateInterest()`. -/
def calculateInterest : AccountRef → Double × AccountRef
  | savings s => (s.calculateInterest.1, savings s.calculateInterest.2)
  | checking c => (c.calculateInterest.1, checking c.calculateInterest.2)
  | premium p => (p.calculateInterest.1, premium p.calculateInterest.2)

/-- Non-virtual call `account->deposit(amount)`: resolved statically to `Account::deposit`. -/
def deposit : AccountRef → Double → AccountRef
  | savings s, amount => savings (s.deposit amount)
  | checking c, amount => checking (c.baseDeposit amount)
  | premium p, amount => premium (p.deposit amount)

/-- Non-virtual call `account->deposit(amount, description)`: resolved statically to the
two-argument `Account::deposit`. -/
def depositDesc : AccountRef → Double → String → AccountRef
  | savings s, amount, d => savings (s.depositDesc amount d)
  | checking c, amount, d => checking (c.depositDesc amount d)
  | premium p, amount, d => premium (p.depositDesc amount d)

end AccountRef

/-- Data member of `class Bank` (line 273). -/
structure Bank where
  bankName : String
  deriving DecidableEq, Repr

namespace Bank

/-- Member `processInterest(Account* account)` (lines 285-289): the pointed-to object
afterwards. -/
def processInterest (_self : Bank) (account : AccountRef) : AccountRef :=
  let computed := account.calculateInterest
  let interest := computed.1
  computed.2.depositDesc interest "Interest Credit"

end Bank

/-! ### The objects of `main` over `double` -/

namespace Main

/-- Line 301: `Bank myBank("Global Bank");` -/
def myBank : Bank := { bankName := "Global Bank" }

/-- Line 306: `SavingsAccount savings1(1001, "Alice Johnson", 5000.0, 4.5);` together with
the counter afterwards. -/
def savings1Built : SavingsAccount × Int :=
  SavingsAccount.new 1001 "Alice Johnson" (Double.finite 5000) (Double.finite 4.5) 0

/-- Line 307: `CheckingAccount checking1(2001, "Bob Smith", 3000.0, 500.0);` together with
the counter afterwards. -/
def checking1Built : CheckingAccount × Int :=
  CheckingAccount.new 2001 "Bob Smith" (Double.finite 3000) (Double.finite 500)
    savings1Built.2

/-- Line 308: `PremiumAccount premium1(3001, "Charlie Brown", 10000.0, 5.0, 2.0);` together
with the counter afterwards. -/
def premium1Built : PremiumAccount × Int :=
  PremiumAccount.new 3001 "Charlie Brown" (Double.finite 10000) (Double.finite 5)
    (Double.finite 2) checking1Built.2

/-- The object `savings1` as constructed. -/
def savings1 : SavingsAccount := savings1Built.1

/-- The object `checking1` as constructed. -/
def checking1 : CheckingAccount := checking1Built.1

/-- The object `premium1` as constructed. -/
def premium1 : PremiumAccount := premium1Built.1

/-- The object `savings1` after line 315, `savings1.deposit(1000.0);` -/
def savings1Line315 : SavingsAccount := savings1.deposit (Double.finite 1000)

/-- The object `savings1` after line 316, `savings1.deposit(500.0, "Salary");` -/
def savings1Line316 : SavingsAccount :=
  savings1Line315.depositDesc (Double.finite 500) "Salary"

/-- Line 324, `savings1.withdraw(500.0);`: the returned flag and `savings1` afterwards. -/
def savings1Line324 : Bool × SavingsAccount := savings1Line316.withdraw (Double.finite 500)

/-- Line 325, `checking1.withdraw(3200.0);`: the returned flag and `checking1` afterwards. -/
def checking1Line325 : Bool × CheckingAccount := checking1.withdraw (Double.finite 3200)

/-- Lines 328-331: the array `accounts` of pointers to the three objects, as they are
when the loop of line 333 starts. -/
def accounts : List AccountRef :=
  [AccountRef.savings savings1Line324.2, AccountRef.checking checking1Line325.2,
   AccountRef.premium premium1]

/-- Lines 333-336: the three pointed-to objects after `myBank.processInterest(accounts[i])`
has run for `i = 0, 1, 2`. -/
def accountsLine336 : List AccountRef := accounts.map myBank.processInterest

end Main

end Fp

/-! ## Auxiliary facts -/

/-- Inside the range of `int`, the two's-complement reduction is the identity. -/
theorem wrapInt_of_inRange (z : Int) (hlo : INT_MIN ≤ z) (hhi : z ≤ INT_MAX) :
    wrapInt z = z := by
  unfold wrapInt
  unfold INT_MIN at hlo
  unfold INT_MAX at hhi
  omega

/-- The constructor establishes the floor of 1000. -/
theorem SavingsAccount.new_minimumBalance (accNum : Int) (name : String) (bal rate : ℚ)
    (totalAccounts : Int) :
    (SavingsAccount.new accNum name bal rate totalAccounts).1.minimumBalance = 1000 := rfl

/-- No member of `SavingsAccount` assigns `minimumBalance`. -/
theorem SavingsAccount.minimumBalance_preserved (s : SavingsAccount) (x : ℚ) (d : String)
    (totalAccounts : Int) :
    (s.withdraw x).2.minimumBalance = s.minimumBalance ∧
    (s.deposit x).minimumBalance = s.minimumBalance ∧
    (s.depositDesc x d).minimumBalance = s.minimumBalance ∧
    (s.setInterestRate x).minimumBalance = s.minimumBalance ∧
    s.calculateInterest.2.minimumBalance = s.minimumBalance ∧
    (SavingsAccount.copy s totalAccounts).1.minimumBalance = s.minimumBalance := by
  refine ⟨?_, rfl, rfl, ?_, rfl, rfl⟩
  · unfold SavingsAccount.withdraw
    split <;> rfl
  · unfold SavingsAccount.setInterestRate
    split <;> rfl

/-- Balance after the two-argument `deposit`, by cases on the sign of the amount. -/
theorem Account.depositDesc_balance (a : Account) (amount : ℚ) (d : String) :
    (a.depositDesc amount d).balance =
      (if amount > 0 then a.balance + amount else a.balance) := by
  unfold Account.depositDesc
  by_cases h : amount > 0
  · simp only [h, if_true]
  · simp only [h, if_false]

/-- Balance after the one-argument `deposit`, by cases on the sign of the amount. -/
theorem Account.deposit_balance (a : Account) (amount : ℚ) :
    (a.deposit amount).balance =
      (if amount > 0 then a.balance + amount else a.balance) := by
  unfold Account.deposit
  by_cases h : amount > 0
  · simp only [h, if_true]
  · simp only [h, if_false]

/-! ## Withdrawal and deposit contracts -/

/-- Claim C5. For `amount <= 0`, every deposit form on every variant leaves the balance
unchanged. -/
theorem deposit_nonpositive_keeps (amount : ℚ) (desc : String) (hamount : amount ≤ 0)
    (a : Account) (s : SavingsAccount) (c : CheckingAccount) (p : PremiumAccount)
    (r : AccountRef) :
    (a.deposit amount).balance = a.balance ∧
    (a.depositDesc amount desc).balance = a.balance ∧
    (s.deposit amount).balance = s.balance ∧
    (s.depositDesc amount desc).balance = s.balance ∧
    (c.deposit amount).balance = c.balance ∧
    (c.baseDeposit amount).balance = c.balance ∧
    (c.depositDesc amount desc).balance = c.balance ∧
    (p.deposit amount).balance = p.balance ∧
    (p.depositDesc amount desc).balance = p.balance ∧
    (r.deposit amount).getBalance = r.getBalance ∧
    (r.depositDesc amount desc).getBalance = r.getBalance := by
  have hneg : ¬ amount > 0 := not_lt.mpr hamount
  have hbase : ∀ x : Account, (x.deposit amount).balance = x.balance := by
    intro x
    simp [Account.deposit, hneg]
  have hdesc : ∀ x : Account, (x.depositDesc amount desc).balance = x.balance := by
    intro x
    simp [Account.depositDesc, hneg]
  refine ⟨hbase a, hdesc a, hbase _, hdesc _, hbase _, hbase _, hdesc _, hbase _, hdesc _,
    ?_, ?_⟩
  · cases r with
    | savings x => exact hbase _
    | checking x => exact hbase _
    | premium x => exact hbase _
  · cases r with
    | savings x => exact hdesc _
    | checking x => exact hdesc _
    | premium x => exact hdesc _

/-- Witness of C5: the driver's three objects, depositing -50 with description "Refund". -/
theorem deposit_nonpositive_keeps_witness :
    (-50 : ℚ) ≤ 0 ∧
    ((Main.savings1.toAccount.deposit (-50)).balance = Main.savings1.toAccount.balance ∧
    (Main.savings1.toAccount.depositDesc (-50) "Refund").balance =
      Main.savings1.toAccount.balance ∧
    (Main.savings1.deposit (-50)).balance = Main.savings1.balance ∧
    (Main.savings1.depositDesc (-50) "Refund").balance = Main.savings1.balance ∧
    (Main.checking1.deposit (-50)).balance = Main.checking1.balance ∧
    (Main.checking1.baseDeposit (-50)).balance = Main.checking1.balance ∧
    (Main.checking1.depositDesc (-50) "Refund").balance = Main.checking1.balance ∧
    (Main.premium1.deposit (-50)).balance = Main.premium1.balance ∧
    (Main.premium1.depositDesc (-50) "Refund").balance = Main.premium1.balance ∧
    ((AccountRef.premium Main.premium1).deposit (-50)).getBalance =
      (AccountRef.premium Main.premium1).getBalance ∧
    ((AccountRef.premium Main.premium1).depositDesc (-50) "Refund").getBalance =
      (AccountRef.premium Main.premium1).getBalance) :=
  ⟨by norm_num,
   deposit_nonpositive_keeps (-50) "Refund" (by norm_num) Main.savings1.toAccount
     Main.savings1 Main.checking1 Main.premium1 (AccountRef.premium Main.premium1)⟩

/-- Claim C6, evaluated on the driver's objects. `SavingsAccount::withdraw` (also when
inherited by `PremiumAccount`) accepts the amounts -100 and 0: it returns true, and for
-100 the balance rises by 100. On the same amounts the base `Account::withdraw` and
`CheckingAccount::withdraw` return false and keep the balance. -/
theorem savings_withdraw_nonpositive_accepted :
    (Main.savings1.withdraw (-100)).1 = true ∧
    (Main.savings1.withdraw (-100)).2.balance = 5100 ∧
    Main.savings1.balance = 5000 ∧
    (Main.savings1.withdraw 0).1 = true ∧
    (Main.premium1.withdraw (-100)).1 = true ∧
    (Main.premium1.withdraw (-100)).2.balance = 10100 ∧
    Main.premium1.balance = 10000 ∧
    ((AccountRef.savings Main.savings1).withdraw (-100)).1 = true ∧
    ((AccountRef.savings Main.savings1).withdraw (-100)).2.getBalance = 5100 ∧
    (Main.savings1.toAccount.withdraw (-100)).1 = false ∧
    (Main.savings1.toAccount.withdraw (-100)).2.balance = 5000 ∧
    (Main.checking1.withdraw (-100)).1 = false ∧
    (Main.checking1.withdraw (-100)).2.balance = Main.checking1.balance := by
  simp only [Main.savings1, Main.savings1Built, Main.premium1, Main.premium1Built,
    Main.checking1, Main.checking1Built, SavingsAccount.new, PremiumAccount.new,
    CheckingAccount.new, Account.parameterized, SavingsAccount.withdraw,
    PremiumAccount.withdraw, CheckingAccount.withdraw, Account.withdraw,
    AccountRef.withdraw, AccountRef.getBalance, AccountRef.toAccount, Account.getBalance]
  norm_num

/-! ## The live-instance counter -/

/-- Every construction path raises the counter by one while the result fits in `int`. -/
theorem LifeEvent.step_of_construction (t : Int) (e : LifeEvent)
    (he : e.isConstruction = true) (hlo : INT_MIN ≤ t) (hhi : t < INT_MAX) :
    LifeEvent.step t e = t + 1 := by
  have hw : wrapInt (t + 1) = t + 1 :=
    wrapInt_of_inRange _ (by unfold INT_MIN at *; omega) (by unfold INT_MAX at *; omega)
  cases e with
  | destroy obj => simp [LifeEvent.isConstruction] at he
  | accountDefault => exact hw
  | accountParameterized n name bal => exact hw
  | accountCopy other => exact hw
  | savingsNew n name bal rate => exact hw
  | savingsCopy other => exact hw
  | checkingNew n name bal od => exact hw
  | checkingCopy other => exact hw
  | premiumNew n name bal rate bonus => exact hw
  | premiumCopy other => exact hw
  | combine a b => exact hw

/-- Every destruction lowers the counter by one while the result fits in `int`. -/
theorem LifeEvent.step_of_destruction (t : Int) (e : LifeEvent)
    (he : e.isConstruction = false) (hlo : INT_MIN < t) (hhi : t ≤ INT_MAX) :
    LifeEvent.step t e = t - 1 := by
  have hw : wrapInt (t - 1) = t - 1 :=
    wrapInt_of_inRange _ (by unfold INT_MIN at *; omega) (by unfold INT_MAX at *; omega)
  cases e with
  | destroy obj =>
    cases obj with
    | account a => exact hw
    | savings x => exact hw
    | checking x => exact hw
    | premium x => exact hw
  | accountDefault => simp [LifeEvent.isConstruction] at he
  | accountParameterized n name bal => simp [LifeEvent.isConstruction] at he
  | accountCopy other => simp [LifeEvent.isConstruction] at he
  | savingsNew n name bal rate => simp [LifeEvent.isConstruction] at he
  | savingsCopy other => simp [LifeEvent.isConstruction] at he
  | checkingNew n name bal od => simp [LifeEvent.isConstruction] at he
  | checkingCopy other => simp [LifeEvent.isConstruction] at he
  | premiumNew n name bal rate bonus => simp [LifeEvent.isConstruction] at he
  | premiumCopy other => simp [LifeEvent.isConstruction] at he
  | combine a b => simp [LifeEvent.isConstruction] at he

/-- An event is a destruction exactly when it is not a construction. -/
theorem LifeEvent.isDestruction_eq_not (e : LifeEvent) :
    e.isDestruction = !e.isConstruction := by
  cases e <;> rfl

/-- Counter after an admissible sequence started with `live` objects and the counter at
`live`. -/
theorem LifeEvent.run_of_admissible (es : List LifeEvent) :
    ∀ live : Nat, LifeEvent.admissible live es = true → (live : Int) ≤ INT_MAX →
      LifeEvent.run (live : Int) es =
          (live : Int) + (LifeEvent.constructions es : Int) - (LifeEvent.destructions es : Int) ∧
        LifeEvent.destructions es ≤ live + LifeEvent.constructions es := by
  induction es with
  | nil =>
    intro live _ _
    simp [LifeEvent.run, LifeEvent.constructions, LifeEvent.destructions]
  | cons e es ih =>
    intro live hadm hmax
    unfold LifeEvent.admissible at hadm
    by_cases he : e.isConstruction = true
    · have hd : e.isDestruction = false := by rw [LifeEvent.isDestruction_eq_not, he]; rfl
      simp only [he, if_true, Bool.and_eq_true, decide_eq_true_eq] at hadm
      obtain ⟨hfit, hrest⟩ := hadm
      have hstep : LifeEvent.step (live : Int) e = ((live + 1 : Nat) : Int) := by
        rw [LifeEvent.step_of_construction _ e he (by unfold INT_MIN; omega)
          (by unfold INT_MAX at *; omega)]
        push_cast
        rfl
      have hih := ih (live + 1) hrest (by push_cast; exact hfit)
      have hc : LifeEvent.constructions (e :: es) = LifeEvent.constructions es + 1 := by
        unfold LifeEvent.constructions
        exact List.countP_cons_of_pos _ es he
      have hdn : LifeEvent.destructions (e :: es) = LifeEvent.destructions es := by
        unfold LifeEvent.destructions
        exact List.countP_cons_of_neg _ es (by simp [hd])
      show LifeEvent.run (LifeEvent.step (live : Int) e) es = _ ∧ _
      rw [hstep, hc, hdn, hih.1]
      refine ⟨?_, ?_⟩
      · push_cast
        ring
      · have := hih.2
        omega
    · have he2 : e.isConstruction = false := by
        cases h : e.isConstruction
        · rfl
        · exact absurd h he
      have hd : e.isDestruction = true := by rw [LifeEvent.isDestruction_eq_not, he2]; rfl
      simp only [he2, Bool.false_eq_true, if_false, Bool.and_eq_true,
        decide_eq_true_eq] at hadm
      obtain ⟨hpos, hrest⟩ := hadm
      have hstep : LifeEvent.step (live : Int) e = ((live - 1 : Nat) : Int) := by
        rw [LifeEvent.step_of_destruction _ e he2 (by unfold INT_MIN; omega) hmax]
        omega
      have hih := ih (live - 1) hrest (by unfold INT_MAX at *; omega)
      have hc : LifeEvent.constructions (e :: es) = LifeEvent.constructions es := by
        unfold LifeEvent.constructions
        exact List.countP_cons_of_neg _ es (by simp [he2])
      have hdn : LifeEvent.destructions (e :: es) = LifeEvent.destructions es + 1 := by
        unfold LifeEvent.destructions
        exact List.countP_cons_of_pos _ es hd
      show LifeEvent.run (LifeEvent.step (live : Int) e) es = _ ∧ _
      rw [hstep, hc, hdn, hih.1]
      refine ⟨?_, ?_⟩
      · push_cast
        omega
      · have := hih.2
        omega

/-- A prefix of an admissible sequence is admissible. -/
theorem LifeEvent.admissible_take (es : List LifeEvent) :
    ∀ (live k : Nat), LifeEvent.admissible live es = true →
      LifeEvent.admissible live (es.take k) = true := by
  induction es with
  | nil =>
    intro live k _
    simp [LifeEvent.admissible]
  | cons e es ih =>
    intro live k hadm
    cases k with
    | zero => simp [LifeEvent.admissible]
    | succ k =>
      unfold LifeEvent.admissible at hadm
      rw [List.take_succ_cons]
      unfold LifeEvent.admissible
      by_cases he : e.isConstruction = true
      · rw [if_pos he] at hadm ⊢
        rw [Bool.and_eq_true] at hadm ⊢
        exact ⟨hadm.1, ih _ k hadm.2⟩
      · rw [if_neg he] at hadm ⊢
        rw [Bool.and_eq_true] at hadm ⊢
        exact ⟨hadm.1, ih _ k hadm.2⟩

/-- Claim C9. Starting from the initial counter 0, after any sequence of constructions
(any constructor of any class, copies, the object made by `operator+`) and destructions
of existing objects that keeps the number of existing objects within `int`,
`getTotalAccounts()` returns the number of constructions minus the number of
destructions; the destructions never outnumber the constructions and the counter is never
negative, at the end and after every prefix of the sequence. -/
theorem totalAccounts_counts_live (es : List LifeEvent)
    (hadm : LifeEvent.admissible 0 es = true) :
    Account.getTotalAccounts (LifeEvent.run Account.totalAccountsInit es) =
      (LifeEvent.constructions es : Int) - (LifeEvent.destructions es : Int) ∧
    LifeEvent.destructions es ≤ LifeEvent.constructions es ∧
    0 ≤ Account.getTotalAccounts (LifeEvent.run Account.totalAccountsInit es) ∧
    ∀ k : Nat,
      Account.getTotalAccounts (LifeEvent.run Account.totalAccountsInit (es.take k)) =
        (LifeEvent.constructions (es.take k) : Int) -
          (LifeEvent.destructions (es.take k) : Int) ∧
      0 ≤ Account.getTotalAccounts (LifeEvent.run Account.totalAccountsInit (es.take k)) := by
  have hgen : ∀ l : List LifeEvent, LifeEvent.admissible 0 l = true →
      LifeEvent.run 0 l =
          (LifeEvent.constructions l : Int) - (LifeEvent.destructions l : Int) ∧
        LifeEvent.destructions l ≤ LifeEvent.constructions l := by
    intro l hl
    have h := LifeEvent.run_of_admissible l 0 hl (by unfold INT_MAX; decide)
    simp only [Nat.cast_zero, zero_add] at h
    exact h
  have hend := hgen es hadm
  refine ⟨hend.1, hend.2, ?_, ?_⟩
  · show 0 ≤ LifeEvent.run 0 es
    rw [hend.1]
    have := hend.2
    omega
  · intro k
    have hk := hgen (es.take k) (LifeEvent.admissible_take es 0 k hadm)
    refine ⟨hk.1, ?_⟩
    show 0 ≤ LifeEvent.run 0 (es.take k)
    rw [hk.1]
    have := hk.2
    omega

/-- Witness of C9: three constructions, a combination, a copy, and two destructions leave
the counter at 3. -/
theorem totalAccounts_counts_live_witness :
    LifeEvent.admissible 0
      [LifeEvent.savingsNew 1001 "Alice Johnson" 5000 4.5,
       LifeEvent.checkingNew 2001 "Bob Smith" 3000 500,
       LifeEvent.premiumNew 3001 "Charlie Brown" 10000 5 2,
       LifeEvent.combine Main.savings1.toAccount Main.checking1.toAccount,
       LifeEvent.savingsCopy Main.savings1,
       LifeEvent.destroy (Instance.savings Main.savings1),
       LifeEvent.destroy (Instance.premium Main.premium1)] = true ∧
    Account.getTotalAccounts (LifeEvent.run Account.totalAccountsInit
      [LifeEvent.savingsNew 1001 "Alice Johnson" 5000 4.5,
       LifeEvent.checkingNew 2001 "Bob Smith" 3000 500,
       LifeEvent.premiumNew 3001 "Charlie Brown" 10000 5 2,
       LifeEvent.combine Main.savings1.toAccount Main.checking1.toAccount,
       LifeEvent.savingsCopy Main.savings1,
       LifeEvent.destroy (Instance.savings Main.savings1),
       LifeEvent.destroy (Instance.premium Main.premium1)]) = ((5 : Nat) : Int) - ((2 : Nat) : Int) :=
  ⟨rfl,
   (totalAccounts_counts_live
      [LifeEvent.savingsNew 1001 "Alice Johnson" 5000 4.5,
       LifeEvent.checkingNew 2001 "Bob Smith" 3000 500,
       LifeEvent.premiumNew 3001 "Charlie Brown" 10000 5 2,
       LifeEvent.combine Main.savings1.toAccount Main.checking1.toAccount,
       LifeEvent.savingsCopy Main.savings1,
       LifeEvent.destroy (Instance.savings Main.savings1),
       LifeEvent.destroy (Instance.premium Main.premium1)] rfl).1⟩

/-! ## The two scenarios of the specification -/

/-- Claim C11, amended. For `SavingsAccount(1001, "Alice", 5000, 4.5)`, `deposit(1000)`
gives balance 6000, then `deposit(500)` gives balance 6500, then `withdraw(500)` returns
true and the balance is 6000. -/
theorem savings_scenario_balances :
    ((SavingsAccount.new 1001 "Alice" 5000 4.5 0).1.deposit 1000).balance = 6000 ∧
    (((SavingsAccount.new 1001 "Alice" 5000 4.5 0).1.deposit 1000).deposit 500).balance =
      6500 ∧
    ((((SavingsAccount.new 1001 "Alice" 5000 4.5 0).1.deposit 1000).deposit 500).withdraw
      500).1 = true ∧
    ((((SavingsAccount.new 1001 "Alice" 5000 4.5 0).1.deposit 1000).deposit 500).withdraw
      500).2.balance = 6000 := by
  simp only [SavingsAccount.new, Account.parameterized, SavingsAccount.deposit,
    Account.deposit, SavingsAccount.withdraw]
  norm_num

/-- Claim C11 as stated fails: after the two deposits and `withdraw(500)` the balance is
not 5500. -/
theorem savings_scenario_not_5500 :
    ¬ (((SavingsAccount.new 1001 "Alice" 5000 4.5 0).1.deposit 1000).balance = 6000 ∧
      (((SavingsAccount.new 1001 "Alice" 5000 4.5 0).1.deposit 1000).deposit 500).balance =
        6500 ∧
      ((((SavingsAccount.new 1001 "Alice" 5000 4.5 0).1.deposit 1000).deposit 500).withdraw
        500).1 = true ∧
      ((((SavingsAccount.new 1001 "Alice" 5000 4.5 0).1.deposit 1000).deposit 500).withdraw
        500).2.balance = 5500) := by
  simp only [SavingsAccount.new, Account.parameterized, SavingsAccount.deposit,
    Account.deposit, SavingsAccount.withdraw]
  norm_num

/-- Claim C12. For `CheckingAccount(2001, "Bob", 3000, 500)`, `withdraw(3200)` returns
true (3000 + 500 = 3500 >= 3200), the balance becomes -200 and the transaction count
becomes 1. -/
theorem checking_scenario_overdraft :
    (CheckingAccount.new 2001 "Bob" 3000 500 0).1.balance +
      (CheckingAccount.new 2001 "Bob" 3000 500 0).1.overdraftLimit = 3500 ∧
    (3500 : ℚ) ≥ 3200 ∧
    (CheckingAccount.new 2001 "Bob" 3000 500 0).1.transactionCount = 0 ∧
    ((CheckingAccount.new 2001 "Bob" 3000 500 0).1.withdraw 3200).1 = true ∧
    ((CheckingAccount.new 2001 "Bob" 3000 500 0).1.withdraw 3200).2.balance = -200 ∧
    ((CheckingAccount.new 2001 "Bob" 3000 500 0).1.withdraw 3200).2.transactionCount = 1 := by
  simp only [CheckingAccount.new, Account.parameterized, CheckingAccount.withdraw, wrapInt]
  norm_num

/-! ## The rate setter -/

/-- Claim C13. `setInterestRate(rate)` stores `rate` when `rate >= 0` and leaves the
object as it was when `rate < 0`; in both cases the balance, the minimum balance and the
`Account` part are unchanged, and `getInterestRate()` afterwards returns the stored
rate. -/
theorem setInterestRate_contract (s : SavingsAccount) (rate : ℚ) :
    (rate ≥ 0 → (s.setInterestRate rate).interestRate = rate) ∧
    (rate < 0 →
      (s.setInterestRate rate).interestRate = s.interestRate ∧ s.setInterestRate rate = s) ∧
    (s.setInterestRate rate).balance = s.balance ∧
    (s.setInterestRate rate).minimumBalance = s.minimumBalance ∧
    (s.setInterestRate rate).toAccount = s.toAccount ∧
    (s.setInterestRate rate).getInterestRate = (s.setInterestRate rate).interestRate ∧
    (s.setInterestRate rate).getInterestRate =
      (if rate ≥ 0 then rate else s.interestRate) := by
  by_cases h : rate ≥ 0
  · have hn : ¬ rate < 0 := not_lt.mpr h
    have hset : s.setInterestRate rate = { s with interestRate := rate } := by
      unfold SavingsAccount.setInterestRate
      rw [if_pos h]
    rw [hset]
    refine ⟨fun _ => rfl, fun hlt => absurd hlt hn, rfl, rfl, rfl, rfl, ?_⟩
    rw [if_pos h]
    rfl
  · have hset : s.setInterestRate rate = s := by
      unfold SavingsAccount.setInterestRate
      rw [if_neg h]
    rw [hset]
    refine ⟨fun hge => absurd hge h, fun _ => ⟨rfl, rfl⟩, rfl, rfl, rfl, rfl, ?_⟩
    rw [if_neg h]
    rfl

/-- Witness of C13: the driver's `savings1` (rate 4.5) asked to take the rate -1. -/
theorem setInterestRate_contract_witness :
    (Main.savings1.setInterestRate (-1)).interestRate = Main.savings1.interestRate ∧
    Main.savings1.setInterestRate (-1) = Main.savings1 :=
  (setInterestRate_contract Main.savings1 (-1)).2.1 (by norm_num)

/-! ## Inheritance of withdraw and deposit -/

/-- The flag returned by `SavingsAccount::withdraw`. -/
theorem SavingsAccount.withdraw_fst_iff (s : SavingsAccount) (amount : ℚ) :
    (s.withdraw amount).1 = true ↔ s.balance - amount ≥ s.minimumBalance := by
  unfold SavingsAccount.withdraw
  by_cases h : s.balance - amount ≥ s.minimumBalance
  · simp only [h, if_true]
  · simp only [h, if_false]
    simp

/-- The balance left by `SavingsAccount::withdraw`. -/
theorem SavingsAccount.withdraw_snd_balance (s : SavingsAccount) (amount : ℚ) :
    (s.withdraw amount).2.balance =
      (if s.balance - amount ≥ s.minimumBalance then s.balance - amount else s.balance) := by
  unfold SavingsAccount.withdraw
  by_cases h : s.balance - amount ≥ s.minimumBalance
  · simp only [h, if_true]
  · simp only [h, if_false]

/-- Member `SavingsAccount::withdraw` does not assign `minimumBalance`. -/
theorem SavingsAccount.withdraw_snd_minimumBalance (s : SavingsAccount) (amount : ℚ) :
    (s.withdraw amount).2.minimumBalance = s.minimumBalance := by
  unfold SavingsAccount.withdraw
  split <;> rfl

/-- A deposit, in either form, never lowers the balance. -/
theorem Account.balance_le_deposit (a : Account) (amount : ℚ) (d : String) :
    a.balance ≤ (a.deposit amount).balance ∧ a.balance ≤ (a.depositDesc amount d).balance := by
  rw [Account.deposit_balance, Account.depositDesc_balance]
  by_cases h : amount > 0
  · rw [if_pos h]
    exact ⟨by linarith, by linarith⟩
  · rw [if_neg h]
    exact ⟨le_refl _, le_refl _⟩

/-- Claim C16. With the floor of 1000, `balance >= 1000` is preserved on a savings and on
a premium account by every deposit form, by `withdraw` with any amount (accepted or
refused, positive or not) and by `Bank::processInterest`; and a `withdraw` that returns
true ends with `balance >= 1000` from any starting balance. -/
theorem savings_floor_invariant (s : SavingsAccount) (p : PremiumAccount) (amount : ℚ)
    (desc : String) (bank : Bank)
    (hsfloor : s.minimumBalance = 1000) (hs : s.balance ≥ 1000)
    (hpfloor : p.minimumBalance = 1000) (hp : p.balance ≥ 1000) :
    (s.deposit amount).balance ≥ 1000 ∧
    (s.depositDesc amount desc).balance ≥ 1000 ∧
    (s.withdraw amount).2.balance ≥ 1000 ∧
    (∃ after : SavingsAccount,
      bank.processInterest (AccountRef.savings s) = AccountRef.savings after ∧
      after.balance ≥ 1000 ∧ after.minimumBalance = 1000) ∧
    (p.deposit amount).balance ≥ 1000 ∧
    (p.depositDesc amount desc).balance ≥ 1000 ∧
    (p.withdraw amount).2.balance ≥ 1000 ∧
    (∃ after : PremiumAccount,
      bank.processInterest (AccountRef.premium p) = AccountRef.premium after ∧
      after.balance ≥ 1000 ∧ after.minimumBalance = 1000) ∧
    (∀ start : SavingsAccount, start.minimumBalance = 1000 →
      (start.withdraw amount).1 = true → (start.withdraw amount).2.balance ≥ 1000) ∧
    (∀ start : PremiumAccount, start.minimumBalance = 1000 →
      (start.withdraw amount).1 = true → (start.withdraw amount).2.balance ≥ 1000) := by
  have hkeep : ∀ x : SavingsAccount, x.minimumBalance = 1000 → x.balance ≥ 1000 →
      (x.withdraw amount).2.balance ≥ 1000 := by
    intro x hx hb
    rw [SavingsAccount.withdraw_snd_balance, hx]
    by_cases hg : x.balance - amount ≥ 1000
    · rw [if_pos hg]
      exact hg
    · rw [if_neg hg]
      exact hb
  have hgood : ∀ x : SavingsAccount, x.minimumBalance = 1000 →
      (x.withdraw amount).1 = true → (x.withdraw amount).2.balance ≥ 1000 := by
    intro x hx hok
    have hg := (SavingsAccount.withdraw_fst_iff x amount).mp hok
    rw [SavingsAccount.withdraw_snd_balance, if_pos hg]
    rw [hx] at hg
    exact hg
  have hsdep := Account.balance_le_deposit s.toAccount amount desc
  have hpdep := Account.balance_le_deposit p.toAccount amount desc
  refine ⟨?_, ?_, hkeep s hsfloor hs, ?_, ?_, ?_, hkeep p.toSavingsAccount hpfloor hp, ?_,
    hgood, fun start hfl hok => hgood start.toSavingsAccount hfl hok⟩
  · show (s.toAccount.deposit amount).balance ≥ 1000
    linarith [hsdep.1]
  · show (s.toAccount.depositDesc amount desc).balance ≥ 1000
    linarith [hsdep.2]
  · refine ⟨s.calculateInterest.2.depositDesc s.calculateInterest.1 "Interest Credit",
      rfl, ?_, hsfloor⟩
    have hint :=
      (Account.balance_le_deposit s.toAccount s.calculateInterest.1 "Interest Credit").2
    show (s.toAccount.depositDesc s.calculateInterest.1 "Interest Credit").balance ≥ 1000
    linarith
  · show (p.toAccount.deposit amount).balance ≥ 1000
    linarith [hpdep.1]
  · show (p.toAccount.depositDesc amount desc).balance ≥ 1000
    linarith [hpdep.2]
  · refine ⟨p.calculateInterest.2.depositDesc p.calculateInterest.1 "Interest Credit",
      rfl, ?_, hpfloor⟩
    have hint :=
      (Account.balance_le_deposit p.toAccount p.calculateInterest.1 "Interest Credit").2
    show (p.toAccount.depositDesc p.calculateInterest.1 "Interest Credit").balance ≥ 1000
    linarith

/-- Witness of C16: the driver's `savings1` (balance 5000) and `premium1` (balance 10000),
withdrawing -100. -/
theorem savings_floor_invariant_witness :
    (Main.savings1.minimumBalance = 1000 ∧ Main.savings1.balance ≥ 1000 ∧
      Main.premium1.minimumBalance = 1000 ∧ Main.premium1.balance ≥ 1000) ∧
    (Main.savings1.withdraw (-100)).2.balance ≥ 1000 ∧
    (Main.premium1.withdraw (-100)).2.balance ≥ 1000 :=
  ⟨⟨rfl, by norm_num [Main.savings1, Main.savings1Built, SavingsAccount.new,
       Account.parameterized],
     rfl, by norm_num [Main.premium1, Main.premium1Built, PremiumAccount.new,
       SavingsAccount.new, Account.parameterized]⟩,
   (savings_floor_invariant Main.savings1 Main.premium1 (-100) "Gift" Main.myBank rfl
     (by norm_num [Main.savings1, Main.savings1Built, SavingsAccount.new,
       Account.parameterized])
     rfl
     (by norm_num [Main.premium1, Main.premium1Built, PremiumAccount.new,
       SavingsAccount.new, Account.parameterized])).2.2.1,
   (savings_floor_invariant Main.savings1 Main.premium1 (-100) "Gift" Main.myBank rfl
     (by norm_num [Main.savings1, Main.savings1Built, SavingsAccount.new,
       Account.parameterized])
     rfl
     (by norm_num [Main.premium1, Main.premium1Built, PremiumAccount.new,
       SavingsAccount.new, Account.parameterized])).2.2.2.2.2.2.1⟩

/-! ## What leaves the balance alone -/

/-- Claim C17. On every variant, `calculateInterest()` returns the object as it was, and
`setInterestRate`, `setAccountHolderName` and `activateConcierge` leave the balance
unchanged; the getters are `const` members that return the stored fields;
`activateConcierge` sets the flag to true, changes nothing else, and applied twice gives
the same object as applied once. -/
theorem balance_frame (a : Account) (s : SavingsAccount) (c : CheckingAccount)
    (p : PremiumAccount) (r : AccountRef) (rate : ℚ) (name : String) (total : Int) :
    s.calculateInterest.2 = s ∧
    c.calculateInterest.2 = c ∧
    p.calculateInterest.2 = p ∧
    r.calculateInterest.2 = r ∧
    (s.setInterestRate rate).balance = s.balance ∧
    (p.setInterestRate rate).balance = p.balance ∧
    (a.setAccountHolderName name).balance = a.balance ∧
    (s.setAccountHolderName name).balance = s.balance ∧
    (c.setAccountHolderName name).balance = c.balance ∧
    (p.setAccountHolderName name).balance = p.balance ∧
    (r.setAccountHolderName name).getBalance = r.getBalance ∧
    p.activateConcierge.balance = p.balance ∧
    p.activateConcierge.toSavingsAccount = p.toSavingsAccount ∧
    p.activateConcierge.bonusRate = p.bonusRate ∧
    p.activateConcierge.hasConciergeService = true ∧
    p.activateConcierge.activateConcierge = p.activateConcierge ∧
    a.getBalance = a.balance ∧
    a.getAccountNumber = a.accountNumber ∧
    a.getAccountHolderName = a.accountHolderName ∧
    s.getInterestRate = s.interestRate ∧
    Account.getTotalAccounts total = total := by
  have hrate : ∀ x : SavingsAccount, (x.setInterestRate rate).balance = x.balance := by
    intro x
    unfold SavingsAccount.setInterestRate
    split <;> rfl
  refine ⟨rfl, rfl, rfl, ?_, hrate s, hrate p.toSavingsAccount, rfl, rfl, rfl, rfl, ?_,
    rfl, rfl, rfl, rfl, rfl, rfl, rfl, rfl, rfl, rfl⟩
  · cases r <;> rfl
  · cases r <;> rfl

/-! ## The transaction counter -/

/-- Claim C18. While the transaction counter can still be incremented within `int`,
`CheckingAccount::deposit(amount)` raises it by 1 for every amount; for `amount <= 0` the
balance is unchanged and the counter is still raised by 1. The overdraft limit is never
touched. -/
theorem checking_deposit_always_counts (c : CheckingAccount) (amount : ℚ)
    (hlo : INT_MIN ≤ c.transactionCount) (hhi : c.transactionCount < INT_MAX) :
    (c.deposit amount).transactionCount = c.transactionCount + 1 ∧
    (amount ≤ 0 →
      (c.deposit amount).balance = c.balance ∧
      (c.deposit amount).transactionCount = c.transactionCount + 1) ∧
    (c.deposit amount).overdraftLimit = c.overdraftLimit := by
  have hw : wrapInt (c.transactionCount + 1) = c.transactionCount + 1 :=
    wrapInt_of_inRange _ (by unfold INT_MIN at *; omega) (by unfold INT_MAX at *; omega)
  have hcount : (c.deposit amount).transactionCount = c.transactionCount + 1 := hw
  refine ⟨hcount, ?_, rfl⟩
  intro hamount
  refine ⟨?_, hcount⟩
  show (c.toAccount.deposit amount).balance = c.balance
  rw [Account.deposit_balance, if_neg (not_lt.mpr hamount)]

/-- Witness of C18: the driver's `checking1` (no transaction yet), depositing -50. -/
theorem checking_deposit_always_counts_witness :
    (INT_MIN ≤ Main.checking1.transactionCount ∧ Main.checking1.transactionCount < INT_MAX) ∧
    (Main.checking1.deposit (-50)).transactionCount = Main.checking1.transactionCount + 1 ∧
    (Main.checking1.deposit (-50)).balance = Main.checking1.balance :=
  ⟨⟨by decide, by decide⟩,
   (checking_deposit_always_counts Main.checking1 (-50) (by decide) (by decide)).1,
   ((checking_deposit_always_counts Main.checking1 (-50) (by decide) (by decide)).2.1
     (by norm_num)).1⟩

namespace Fp
namespace Double

/-- Rounding to the nearest integer gives at least the floor. -/
theorem floor_le_roundHalfEven (t : ℚ) : ⌊t⌋ ≤ roundHalfEven t := by
  unfold roundHalfEven
  split_ifs <;> omega

/-- Rounding to the nearest integer gives at most the floor plus one. -/
theorem roundHalfEven_le_floor_succ (t : ℚ) : roundHalfEven t ≤ ⌊t⌋ + 1 := by
  unfold roundHalfEven
  split_ifs <;> omega

/-- An integer rounds to itself. -/
theorem roundHalfEven_intCast (n : ℤ) : roundHalfEven (n : ℚ) = n := by
  unfold roundHalfEven
  simp

/-- Rounding does not pass an integer above the argument. -/
theorem roundHalfEven_le_of_le_intCast (t : ℚ) (N : ℤ) (h : t ≤ N) : roundHalfEven t ≤ N := by
  have hf : ⌊t⌋ ≤ N := (Int.floor_le_floor h).trans (by simp)
  rcases lt_or_eq_of_le hf with hlt | heq
  · have := roundHalfEven_le_floor_succ t
    omega
  · have hle : t ≤ ⌊t⌋ := by rw [heq]; exact h
    have hfl := Int.floor_le t
    have ht : t = ⌊t⌋ := le_antisymm hle hfl
    rw [ht, roundHalfEven_intCast]
    simpa using hf

/-- Rounding does not pass an integer below the argument. -/
theorem intCast_le_roundHalfEven (t : ℚ) (N : ℤ) (h : (N : ℚ) ≤ t) : N ≤ roundHalfEven t :=
  (Int.le_floor.mpr h).trans (floor_le_roundHalfEven t)

/-- Rounding to the nearest integer, ties to even, is monotone. -/
theorem roundHalfEven_mono {s t : ℚ} (h : s ≤ t) : roundHalfEven s ≤ roundHalfEven t := by
  have hf : ⌊s⌋ ≤ ⌊t⌋ := Int.floor_le_floor h
  rcases lt_or_eq_of_le hf with hlt | heq
  · have h1 := roundHalfEven_le_floor_succ s
    have h2 := floor_le_roundHalfEven t
    omega
  · unfold roundHalfEven
    rw [heq]
    have hfr : s - ⌊t⌋ ≤ t - ⌊t⌋ := by linarith
    split_ifs <;> first | omega | (exfalso; linarith)

/-- An integer closer than one half is the rounded value. -/
theorem roundHalfEven_eq_of_abs_lt (t : ℚ) (n : ℤ) (h : |t - n| < 1 / 2) :
    roundHalfEven t = n := by
  rw [abs_lt] at h
  have h1 := floor_le_roundHalfEven t
  have h2 := roundHalfEven_le_floor_succ t
  by_cases hn : (n : ℚ) ≤ t
  · have hfl : ⌊t⌋ = n := by
      rw [Int.floor_eq_iff]
      constructor
      · exact hn
      · linarith [h.2]
    unfold roundHalfEven
    rw [hfl]
    have : t - n < 1 / 2 := h.2
    rw [if_pos this]
  · push_neg at hn
    have hfl : ⌊t⌋ = n - 1 := by
      rw [Int.floor_eq_iff]
      push_cast
      constructor
      · linarith [h.1]
      · linarith
    unfold roundHalfEven
    rw [hfl]
    push_cast
    have hA : ¬ (t - (n - 1) < 1 / 2) := by linarith [h.1]
    have hB : t - (n - 1) > 1 / 2 := by linarith [h.1]
    rw [if_neg hA, if_pos hB]
    omega

/-- A tie goes to the even neighbour. -/
theorem roundHalfEven_tie (f : ℤ) :
    roundHalfEven ((f : ℚ) + 1 / 2) = if f % 2 = 0 then f else f + 1 := by
  have hfl : ⌊(f : ℚ) + 1 / 2⌋ = f := by
    rw [Int.floor_eq_iff]
    constructor <;> linarith
  unfold roundHalfEven
  rw [hfl]
  have hA : ¬ ((f : ℚ) + 1 / 2 - f < 1 / 2) := by linarith
  have hB : ¬ ((f : ℚ) + 1 / 2 - f > 1 / 2) := by linarith
  rw [if_neg hA, if_neg hB]

/-- The spacing of a binade is positive. -/
theorem quantum_pos (x : ℚ) : 0 < quantum x := by
  unfold quantum
  positivity

/-- The exponent is never below the least normal exponent. -/
theorem exponent_ge (x : ℚ) : -1022 ≤ exponent x := le_max_right _ _

/-- The exponent is monotone on positive numbers. -/
theorem exponent_mono {x y : ℚ} (hx : 0 < x) (h : x ≤ y) : exponent x ≤ exponent y := by
  unfold exponent
  exact max_le_max (Int.log_mono_right hx h) (le_refl _)

/-- A number lies below the upper end of its binade. -/
theorem lt_zpow_exponent_succ (x : ℚ) : x < (2 : ℚ) ^ (exponent x + 1) := by
  have h1 : x < ((2 : ℕ) : ℚ) ^ (Int.log 2 x + 1) := Int.lt_zpow_succ_log_self (by norm_num) x
  have h2 : ((2 : ℕ) : ℚ) ^ (Int.log 2 x + 1) ≤ ((2 : ℕ) : ℚ) ^ (exponent x + 1) := by
    apply zpow_le_zpow_right₀ (by norm_num)
    have : Int.log 2 x ≤ exponent x := le_max_left _ _
    omega
  have h3 := lt_of_lt_of_le h1 h2
  simpa using h3

/-- A positive number above the subnormal range lies at or above the lower end of its binade. -/
theorem zpow_exponent_le {x : ℚ} (hx : 0 < x) (he : -1022 < exponent x) :
    (2 : ℚ) ^ exponent x ≤ x := by
  have hlog : exponent x = Int.log 2 x := by
    unfold exponent at he ⊢
    rcases le_total (Int.log 2 x) (-1022) with h | h
    · rw [max_eq_right h] at he
      omega
    · exact max_eq_left h
  rw [hlog]
  have := Int.zpow_log_le_self (b := 2) (by norm_num) hx
  simpa using this

/-- The exponent of a number located in a normal binade. -/
theorem exponent_eq_of_bounds (x : ℚ) (e : ℤ) (he : -1022 ≤ e) (hx : 0 < x)
    (h1 : (2 : ℚ) ^ e ≤ x) (h2 : x < (2 : ℚ) ^ (e + 1)) : exponent x = e := by
  have hlog : Int.log 2 x = e := by
    apply le_antisymm
    · have : Int.log 2 x < e + 1 := by
        rw [← Int.lt_zpow_iff_log_lt (by norm_num) hx]
        simpa using h2
      omega
    · rw [← Int.zpow_le_iff_le_log (by norm_num) hx]
      simpa using h1
  unfold exponent
  rw [hlog]
  exact max_eq_left he

/-- The exponent of a positive number below the normal range. -/
theorem exponent_eq_of_tiny (x : ℚ) (hx : 0 < x) (h2 : x < (2 : ℚ) ^ (-1022 : ℤ)) :
    exponent x = -1022 := by
  unfold exponent
  apply max_eq_right
  have : Int.log 2 x < -1022 := by
    rw [← Int.lt_zpow_iff_log_lt (by norm_num) hx]
    simpa using h2
  omega

/-- Zero rounds to zero. -/
theorem roundMagnitude_zero : roundMagnitude 0 = 0 := by
  unfold roundMagnitude
  rw [zero_div]
  have : roundHalfEven 0 = 0 := by
    have := roundHalfEven_intCast 0
    simpa using this
  rw [this]
  simp

/-- A rounded magnitude is not negative. -/
theorem roundMagnitude_nonneg {x : ℚ} (hx : 0 ≤ x) : 0 ≤ roundMagnitude x := by
  unfold roundMagnitude
  have hq := quantum_pos x
  have h0 : (0 : ℤ) ≤ roundHalfEven (x / quantum x) := by
    apply intCast_le_roundHalfEven
    simp only [Int.cast_zero]
    exact div_nonneg hx hq.le
  have : (0 : ℚ) ≤ (roundHalfEven (x / quantum x) : ℚ) := by exact_mod_cast h0
  exact mul_nonneg this hq.le

/-- A rounded magnitude is at most the upper end of the binade. -/
theorem roundMagnitude_le_zpow (x : ℚ) :
    roundMagnitude x ≤ (2 : ℚ) ^ (exponent x + 1) := by
  unfold roundMagnitude
  have hq := quantum_pos x
  have hlt := lt_zpow_exponent_succ x
  have hsplit : (2 : ℚ) ^ (exponent x + 1) = (2 : ℚ) ^ (53 : ℕ) * quantum x := by
    unfold quantum
    rw [← zpow_natCast, ← zpow_add₀ (by norm_num : (2 : ℚ) ≠ 0)]
    congr 1
    push_cast
    ring
  have hcast : ((2 ^ 53 : ℤ) : ℚ) = (2 : ℚ) ^ (53 : ℕ) := by norm_num
  have hdiv : x / quantum x ≤ ((2 ^ 53 : ℤ) : ℚ) := by
    rw [hcast, div_le_iff₀ hq, ← hsplit]
    exact hlt.le
  have hr := roundHalfEven_le_of_le_intCast _ _ hdiv
  have hr2 : (roundHalfEven (x / quantum x) : ℚ) ≤ ((2 ^ 53 : ℤ) : ℚ) := by exact_mod_cast hr
  rw [hsplit]
  rw [hcast] at hr2
  exact mul_le_mul_of_nonneg_right hr2 hq.le

/-- Above the subnormal range a rounded magnitude is at least the lower end of the binade. -/
theorem zpow_le_roundMagnitude {x : ℚ} (hx : 0 < x) (he : -1022 < exponent x) :
    (2 : ℚ) ^ exponent x ≤ roundMagnitude x := by
  unfold roundMagnitude
  have hq := quantum_pos x
  have hle := zpow_exponent_le hx he
  have hsplit : (2 : ℚ) ^ exponent x = (2 : ℚ) ^ (52 : ℕ) * quantum x := by
    unfold quantum
    rw [← zpow_natCast, ← zpow_add₀ (by norm_num : (2 : ℚ) ≠ 0)]
    congr 1
    push_cast
    ring
  have hcast : ((2 ^ 52 : ℤ) : ℚ) = (2 : ℚ) ^ (52 : ℕ) := by norm_num
  have hdiv : ((2 ^ 52 : ℤ) : ℚ) ≤ x / quantum x := by
    rw [hcast, le_div_iff₀ hq, ← hsplit]
    exact hle
  have hr := intCast_le_roundHalfEven _ _ hdiv
  have hr2 : ((2 ^ 52 : ℤ) : ℚ) ≤ (roundHalfEven (x / quantum x) : ℚ) := by exact_mod_cast hr
  rw [hsplit]
  rw [hcast] at hr2
  exact mul_le_mul_of_nonneg_right hr2 hq.le

/-- Rounding of magnitudes is monotone. -/
theorem roundMagnitude_mono {x y : ℚ} (hx : 0 ≤ x) (h : x ≤ y) :
    roundMagnitude x ≤ roundMagnitude y := by
  rcases eq_or_lt_of_le hx with h0 | hpos
  · rw [← h0, roundMagnitude_zero]
    exact roundMagnitude_nonneg (hx.trans h)
  · have hy : 0 < y := lt_of_lt_of_le hpos h
    have he := exponent_mono hpos h
    rcases eq_or_lt_of_le he with heq | hlt
    · unfold roundMagnitude
      have hqeq : quantum x = quantum y := by unfold quantum; rw [heq]
      rw [hqeq]
      have hq := quantum_pos y
      have hdiv : x / quantum y ≤ y / quantum y := div_le_div_of_nonneg_right h hq.le
      have hr := roundHalfEven_mono hdiv
      have hr2 : (roundHalfEven (x / quantum y) : ℚ) ≤ (roundHalfEven (y / quantum y) : ℚ) := by
        exact_mod_cast hr
      exact mul_le_mul_of_nonneg_right hr2 hq.le
    · have h1 := roundMagnitude_le_zpow x
      have h2 : (2 : ℚ) ^ (exponent x + 1) ≤ (2 : ℚ) ^ exponent y :=
        zpow_le_zpow_right₀ (by norm_num) (by omega)
      have h3 := zpow_le_roundMagnitude hy (by have := exponent_ge x; omega)
      exact h1.trans (h2.trans h3)

/-- The rounded magnitude from the exponent and the rounded significand. -/
theorem roundMagnitude_eq (x : ℚ) (e n : ℤ) (he : exponent x = e)
    (hn : roundHalfEven (x / (2 : ℚ) ^ (e - 52)) = n) :
    roundMagnitude x = (n : ℚ) * (2 : ℚ) ^ (e - 52) := by
  unfold roundMagnitude quantum
  rw [he, hn]

/-- Unary minus is an involution. -/
theorem neg_neg_eq (a : Double) : neg (neg a) = a := by
  cases a <;> simp [neg]

/-- Overflow handling keeps the order of magnitudes. -/
theorem le_ofMagnitude_mono {r s : ℚ} (h : r ≤ s) :
    le (ofMagnitude r) (ofMagnitude s) = true := by
  unfold ofMagnitude
  by_cases hr : r ≥ (2 : ℚ) ^ (1024 : ℕ)
  · have hs : s ≥ (2 : ℚ) ^ (1024 : ℕ) := le_trans hr h
    rw [if_pos hr, if_pos hs]
    rfl
  · rw [if_neg hr]
    by_cases hs : s ≥ (2 : ℚ) ^ (1024 : ℕ)
    · rw [if_pos hs]
      rfl
    · rw [if_neg hs]
      simp [le, h]

/-- A negated magnitude is at most any magnitude. -/
theorem le_neg_ofMagnitude_ofMagnitude {r s : ℚ} (hr : 0 ≤ r) (hs : 0 ≤ s) :
    le (neg (ofMagnitude r)) (ofMagnitude s) = true := by
  unfold ofMagnitude
  by_cases h1 : r ≥ (2 : ℚ) ^ (1024 : ℕ) <;> by_cases h2 : s ≥ (2 : ℚ) ^ (1024 : ℕ)
  · rw [if_pos h1, if_pos h2]; rfl
  · rw [if_pos h1, if_neg h2]; rfl
  · rw [if_neg h1, if_pos h2]; rfl
  · rw [if_neg h1, if_neg h2]
    simp only [neg, le, decide_eq_true_eq]
    linarith

/-- Unary minus reverses the order. -/
theorem le_neg_neg {a b : Double} (h : le a b = true) : le (neg b) (neg a) = true := by
  cases a <;> cases b <;> simp_all [le, neg]

/-- Rounding to the nearest `double` is monotone. -/
theorem ofRat_mono {x y : ℚ} (h : x ≤ y) : le (ofRat x) (ofRat y) = true := by
  unfold ofRat
  by_cases hx : 0 ≤ x
  · have hy : 0 ≤ y := hx.trans h
    rw [if_pos hx, if_pos hy]
    exact le_ofMagnitude_mono (roundMagnitude_mono hx h)
  · rw [if_neg hx]
    have hxn : 0 ≤ -x := by linarith
    by_cases hy : 0 ≤ y
    · rw [if_pos hy]
      exact le_neg_ofMagnitude_ofMagnitude (roundMagnitude_nonneg hxn) (roundMagnitude_nonneg hy)
    · rw [if_neg hy]
      have hyn : 0 ≤ -y := by linarith
      exact le_neg_neg (le_ofMagnitude_mono (roundMagnitude_mono hyn (by linarith)))

/-- Rounding commutes with unary minus. -/
theorem ofRat_neg (x : ℚ) : ofRat (-x) = neg (ofRat x) := by
  unfold ofRat
  rcases lt_trichotomy x 0 with h | h | h
  · have h1 : 0 ≤ -x := by linarith
    have h2 : ¬ 0 ≤ x := by linarith
    rw [if_pos h1, if_neg h2, neg_neg_eq]
  · subst h
    have hsmall : ¬ ((0 : ℚ) ≥ (2 : ℚ) ^ (1024 : ℕ)) := by norm_num
    simp only [neg_zero, le_refl, if_true, roundMagnitude_zero, ofMagnitude, if_neg hsmall,
      neg]
  · have h1 : ¬ 0 ≤ -x := by linarith
    have h2 : 0 ≤ x := by linarith
    rw [if_neg h1, if_pos h2, neg_neg]

/-- The `double` nearest to a positive number of a normal binade, from its rounded significand. -/
theorem ofRat_eq_of_pos (x : ℚ) (e n : ℤ) (hx : 0 < x) (he : -1022 ≤ e)
    (h1 : (2 : ℚ) ^ e ≤ x) (h2 : x < (2 : ℚ) ^ (e + 1))
    (hn : roundHalfEven (x / (2 : ℚ) ^ (e - 52)) = n)
    (hfin : (n : ℚ) * (2 : ℚ) ^ (e - 52) < (2 : ℚ) ^ (1024 : ℕ)) :
    ofRat x = finite ((n : ℚ) * (2 : ℚ) ^ (e - 52)) := by
  unfold ofRat
  rw [if_pos hx.le, roundMagnitude_eq x e n (exponent_eq_of_bounds x e he hx h1 h2) hn]
  unfold ofMagnitude
  rw [if_neg (not_le.mpr hfin)]

/-- A multiple of the spacing of its own binade rounds to itself. -/
theorem roundMagnitude_of_multiple (x : ℚ) (m : ℤ) (h : x = (m : ℚ) * quantum x) :
    roundMagnitude x = x := by
  have hq := quantum_pos x
  have hdiv : x / quantum x = (m : ℚ) := by
    rw [div_eq_iff (ne_of_gt hq)]
    exact h
  unfold roundMagnitude
  rw [hdiv, roundHalfEven_intCast, ← h]

/-- A natural number below `2^53` is a `double`. -/
theorem ofRat_natCast (n : ℕ) (hlt : n < 2 ^ 53) : ofRat (n : ℚ) = finite (n : ℚ) := by
  have hnn : (0 : ℚ) ≤ (n : ℚ) := Nat.cast_nonneg n
  have hbig : ((n : ℚ)) < (2 : ℚ) ^ (1024 : ℕ) := by
    have h1 : (n : ℚ) < (2 : ℚ) ^ (53 : ℕ) := by exact_mod_cast hlt
    have h2 : (2 : ℚ) ^ (53 : ℕ) ≤ (2 : ℚ) ^ (1024 : ℕ) :=
      pow_le_pow_right₀ (by norm_num) (by norm_num)
    linarith
  have hround : roundMagnitude (n : ℚ) = (n : ℚ) := by
    rcases Nat.eq_zero_or_pos n with h0 | hpos
    · subst h0
      simpa using roundMagnitude_zero
    · have hx : (0 : ℚ) < (n : ℚ) := by exact_mod_cast hpos
      have he : exponent (n : ℚ) ≤ 52 := by
        have hlog : Int.log 2 (n : ℚ) < 53 := by
          rw [← Int.lt_zpow_iff_log_lt (by norm_num) hx]
          have : (n : ℚ) < (2 : ℚ) ^ ((53 : ℕ) : ℤ) := by
            rw [zpow_natCast]
            exact_mod_cast hlt
          simpa using this
        unfold exponent
        exact max_le (by omega) (by norm_num)
      obtain ⟨k, hk⟩ : ∃ k : ℕ, (k : ℤ) = 52 - exponent (n : ℚ) :=
        ⟨(52 - exponent (n : ℚ)).toNat, Int.toNat_of_nonneg (by omega)⟩
      apply roundMagnitude_of_multiple (n : ℚ) ((n : ℤ) * 2 ^ k)
      unfold quantum
      have hexp : exponent (n : ℚ) - 52 = -(k : ℤ) := by omega
      rw [hexp, zpow_neg, zpow_natCast]
      push_cast
      field_simp
  unfold ofRat
  rw [if_pos hnn, hround]
  unfold ofMagnitude
  rw [if_neg (not_le.mpr hbig)]

/-- An integer of absolute value below `2^53` is a `double`. -/
theorem ofRat_of_int (q : ℚ) (n : ℤ) (hq : q = (n : ℚ)) (hn : |n| < 2 ^ 53) :
    ofRat q = finite q := by
  rw [abs_lt] at hn
  rcases le_total 0 n with h | h
  · obtain ⟨k, rfl⟩ := Int.eq_ofNat_of_zero_le h
    have hk : k < 2 ^ 53 := by omega
    rw [hq]
    simpa using ofRat_natCast k hk
  · obtain ⟨k, hk⟩ := Int.eq_ofNat_of_zero_le (by omega : 0 ≤ -n)
    have hk2 : k < 2 ^ 53 := by omega
    have hq2 : q = -((k : ℚ)) := by
      rw [hq]
      have : (n : ℚ) = -((-n : ℤ) : ℚ) := by push_cast; ring
      rw [this, hk]
      simp
    rw [hq2, ofRat_neg, ofRat_natCast k hk2]
    rfl

/-! ### Concrete roundings -/

/-- The sum `2^53 + 1` is a tie and rounds down to the even `2^53`. -/
theorem ofRat_two53_add_one : ofRat (9007199254740992 + 1) = finite 9007199254740992 := by
  have hn : roundHalfEven ((9007199254740993 : ℚ) / (2 : ℚ) ^ ((53 : ℤ) - 52)) =
      4503599627370496 := by
    have ht : (9007199254740993 : ℚ) / (2 : ℚ) ^ ((53 : ℤ) - 52) =
        ((4503599627370496 : ℤ) : ℚ) + 1 / 2 := by norm_num
    rw [ht, roundHalfEven_tie]
    decide
  have h := ofRat_eq_of_pos 9007199254740993 53 4503599627370496 (by norm_num) (by norm_num)
    (by norm_num) (by norm_num) hn (by norm_num)
  have hx : (9007199254740992 + 1 : ℚ) = 9007199254740993 := by norm_num
  rw [hx, h]
  norm_num

/-- The sum `2^53 + 3` is a tie and rounds up to the even `2^53 + 4`. -/
theorem ofRat_two53_add_three :
    ofRat (9007199254740992 + 3) = finite 9007199254740996 := by
  have hn : roundHalfEven ((9007199254740995 : ℚ) / (2 : ℚ) ^ ((53 : ℤ) - 52)) =
      4503599627370498 := by
    have ht : (9007199254740995 : ℚ) / (2 : ℚ) ^ ((53 : ℤ) - 52) =
        ((4503599627370497 : ℤ) : ℚ) + 1 / 2 := by norm_num
    rw [ht, roundHalfEven_tie]
    decide
  have h := ofRat_eq_of_pos 9007199254740995 53 4503599627370498 (by norm_num) (by norm_num)
    (by norm_num) (by norm_num) hn (by norm_num)
  have hx : (9007199254740992 + 3 : ℚ) = 9007199254740995 := by norm_num
  rw [hx, h]
  norm_num

/-- The number `2^53` is a `double`. -/
theorem ofRat_two53 : ofRat 9007199254740992 = finite 9007199254740992 := by
  have hn : roundHalfEven ((9007199254740992 : ℚ) / (2 : ℚ) ^ ((53 : ℤ) - 52)) =
      4503599627370496 := by
    apply roundHalfEven_eq_of_abs_lt
    rw [abs_lt]
    constructor <;> norm_num
  have h := ofRat_eq_of_pos 9007199254740992 53 4503599627370496 (by norm_num) (by norm_num)
    (by norm_num) (by norm_num) hn (by norm_num)
  rw [h]
  norm_num

/-- The number `2^53 + 4` is a `double`. -/
theorem ofRat_two53_add_four : ofRat 9007199254740996 = finite 9007199254740996 := by
  have hn : roundHalfEven ((9007199254740996 : ℚ) / (2 : ℚ) ^ ((53 : ℤ) - 52)) =
      4503599627370498 := by
    apply roundHalfEven_eq_of_abs_lt
    rw [abs_lt]
    constructor <;> norm_num
  have h := ofRat_eq_of_pos 9007199254740996 53 4503599627370498 (by norm_num) (by norm_num)
    (by norm_num) (by norm_num) hn (by norm_num)
  rw [h]
  norm_num

/-- The number `1e16` is a `double`. -/
theorem ofRat_ten16 : ofRat 10000000000000000 = finite 10000000000000000 := by
  have hn : roundHalfEven ((10000000000000000 : ℚ) / (2 : ℚ) ^ ((53 : ℤ) - 52)) =
      5000000000000000 := by
    apply roundHalfEven_eq_of_abs_lt
    rw [abs_lt]
    constructor <;> norm_num
  have h := ofRat_eq_of_pos 10000000000000000 53 5000000000000000 (by norm_num) (by norm_num)
    (by norm_num) (by norm_num) hn (by norm_num)
  rw [h]
  norm_num

/-- The difference `1e16 - 1` is a tie and rounds up to the even `1e16`. -/
theorem ofRat_ten16_sub_one :
    ofRat (10000000000000000 + -1) = finite 10000000000000000 := by
  have hn : roundHalfEven ((9999999999999999 : ℚ) / (2 : ℚ) ^ ((53 : ℤ) - 52)) =
      5000000000000000 := by
    have ht : (9999999999999999 : ℚ) / (2 : ℚ) ^ ((53 : ℤ) - 52) =
        ((4999999999999999 : ℤ) : ℚ) + 1 / 2 := by norm_num
    rw [ht, roundHalfEven_tie]
    decide
  have h := ofRat_eq_of_pos 9999999999999999 53 5000000000000000 (by norm_num) (by norm_num)
    (by norm_num) (by norm_num) hn (by norm_num)
  have hx : (10000000000000000 + -1 : ℚ) = 9999999999999999 := by norm_num
  rw [hx, h]
  norm_num

/-- The number `2^-60` is a `double`. -/
theorem ofRat_two_pow_neg60 : ofRat (1 / 2 ^ 60) = finite (1 / 2 ^ 60) := by
  have hn : roundHalfEven (((1 : ℚ) / 2 ^ 60) / (2 : ℚ) ^ ((-60 : ℤ) - 52)) =
      4503599627370496 := by
    apply roundHalfEven_eq_of_abs_lt
    rw [abs_lt]
    constructor <;> norm_num
  have h := ofRat_eq_of_pos (1 / 2 ^ 60) (-60) 4503599627370496 (by norm_num) (by norm_num)
    (by norm_num) (by norm_num) hn (by norm_num)
  rw [h]
  norm_num

/-- The difference `1000 - 2^-60` rounds to 1000. -/
theorem ofRat_1000_sub_tiny :
    ofRat (1000 + -(1 / 2 ^ 60)) = finite 1000 := by
  have hn : roundHalfEven (((1000 : ℚ) + -(1 / 2 ^ 60)) / (2 : ℚ) ^ ((9 : ℤ) - 52)) =
      8796093022208000 := by
    apply roundHalfEven_eq_of_abs_lt
    rw [abs_lt]
    constructor <;> norm_num
  have h := ofRat_eq_of_pos (1000 + -(1 / 2 ^ 60)) 9 8796093022208000 (by norm_num)
    (by norm_num) (by norm_num) (by norm_num) hn (by norm_num)
  rw [h]
  norm_num

/-- The `double` nearest to one hundredth. -/
theorem ofRat_hundredth :
    ofRat (1 / 100) = finite (5764607523034235 / 576460752303423488) := by
  have hn : roundHalfEven (((1 : ℚ) / 100) / (2 : ℚ) ^ ((-7 : ℤ) - 52)) =
      5764607523034235 := by
    apply roundHalfEven_eq_of_abs_lt
    rw [abs_lt]
    constructor <;> norm_num
  have h := ofRat_eq_of_pos (1 / 100) (-7) 5764607523034235 (by norm_num) (by norm_num)
    (by norm_num) (by norm_num) hn (by norm_num)
  rw [h]
  norm_num

/-- The `double` nearest to one hundredth is a `double`. -/
theorem ofRat_nearest_hundredth :
    ofRat (5764607523034235 / 576460752303423488) =
      finite (5764607523034235 / 576460752303423488) := by
  have hn : roundHalfEven (((5764607523034235 : ℚ) / 576460752303423488) /
      (2 : ℚ) ^ ((-7 : ℤ) - 52)) = 5764607523034235 := by
    apply roundHalfEven_eq_of_abs_lt
    rw [abs_lt]
    constructor <;> norm_num
  have h := ofRat_eq_of_pos (5764607523034235 / 576460752303423488) (-7) 5764607523034235
    (by norm_num) (by norm_num) (by norm_num) (by norm_num) hn (by norm_num)
  rw [h]
  norm_num

end Double
end Fp

/-! ## Withdrawal and deposit contracts over `double` -/

/-- Claim C1, amended. For a savings account with the floor of 1000.0 set by its
constructor, `withdraw(amount)` returns true exactly when the `double` difference
`balance - amount` (the exact difference rounded to the nearest `double`) is `>= 1000`; on
true the balance becomes that `double` difference and nothing else changes; on false the
whole object is unchanged. When the exact difference `b - a` of finite operands is itself
a `double`, this is `b - a >= 1000` and the new balance `b - a`. -/
theorem fp_savings_withdraw_contract (s : Fp.SavingsAccount) (amount : Fp.Double)
    (hfloor : s.minimumBalance = Fp.Double.finite 1000) :
    ((s.withdraw amount).1 = true ↔
      Fp.Double.ge (Fp.Double.sub s.balance amount) (Fp.Double.finite 1000) = true) ∧
    ((s.withdraw amount).1 = true →
      (s.withdraw amount).2.balance = Fp.Double.sub s.balance amount ∧
      (s.withdraw amount).2 = { s with balance := Fp.Double.sub s.balance amount }) ∧
    ((s.withdraw amount).1 = false → (s.withdraw amount).2 = s) ∧
    (∀ b a : ℚ, s.balance = Fp.Double.finite b → amount = Fp.Double.finite a →
      Fp.Double.ofRat (b - a) = Fp.Double.finite (b - a) →
      (((s.withdraw amount).1 = true ↔ b - a ≥ 1000) ∧
       ((s.withdraw amount).1 = true →
         (s.withdraw amount).2.balance = Fp.Double.finite (b - a)))) := by
  have hflag : (s.withdraw amount).1 = true ↔
      Fp.Double.ge (Fp.Double.sub s.balance amount) (Fp.Double.finite 1000) = true := by
    unfold Fp.SavingsAccount.withdraw
    rw [hfloor]
    cases h : Fp.Double.ge (Fp.Double.sub s.balance amount) (Fp.Double.finite 1000) <;> simp
  have hbal : (s.withdraw amount).1 = true →
      (s.withdraw amount).2.balance = Fp.Double.sub s.balance amount ∧
      (s.withdraw amount).2 = { s with balance := Fp.Double.sub s.balance amount } := by
    unfold Fp.SavingsAccount.withdraw
    cases h : Fp.Double.ge (Fp.Double.sub s.balance amount) s.minimumBalance <;> simp
  refine ⟨hflag, hbal, ?_, ?_⟩
  · unfold Fp.SavingsAccount.withdraw
    cases h : Fp.Double.ge (Fp.Double.sub s.balance amount) s.minimumBalance <;> simp
  · intro b a hb ha hexact
    have hsub : Fp.Double.sub s.balance amount = Fp.Double.finite (b - a) := by
      rw [hb, ha]
      show Fp.Double.ofRat (b + -a) = _
      rw [← sub_eq_add_neg, hexact]
    constructor
    · rw [hflag, hsub]
      simp [Fp.Double.ge, Fp.Double.le]
    · intro hok
      rw [(hbal hok).1, hsub]

/-- Claim C1 as stated fails: on balance 1000 the withdrawal of `2^-60` is accepted,
although the exact difference is below 1000, and the balance stays 1000 instead of
becoming the exact difference. Both operands are `double` values. -/
theorem fp_savings_withdraw_rounds :
    Fp.Double.isFinite (Fp.Double.finite 1000) = true ∧
    Fp.Double.isFinite (Fp.Double.finite (1 / 2 ^ 60)) = true ∧
    ((Fp.SavingsAccount.new 1001 "Alice" (Fp.Double.finite 1000) (Fp.Double.finite 4.5)
      0).1.withdraw (Fp.Double.finite (1 / 2 ^ 60))).1 = true ∧
    ¬ ((1000 : ℚ) - 1 / 2 ^ 60 ≥ 1000) ∧
    ((Fp.SavingsAccount.new 1001 "Alice" (Fp.Double.finite 1000) (Fp.Double.finite 4.5)
      0).1.withdraw (Fp.Double.finite (1 / 2 ^ 60))).2.balance = Fp.Double.finite 1000 ∧
    (1000 : ℚ) ≠ 1000 - 1 / 2 ^ 60 := by
  have hsub : Fp.Double.sub (Fp.Double.finite 1000) (Fp.Double.finite (1 / 2 ^ 60)) =
      Fp.Double.finite 1000 := Fp.Double.ofRat_1000_sub_tiny
  have h1000 : Fp.Double.ofRat 1000 = Fp.Double.finite 1000 :=
    Fp.Double.ofRat_of_int 1000 1000 (by norm_num) (by norm_num)
  refine ⟨?_, ?_, ?_, by norm_num, ?_, by norm_num⟩
  · simp [Fp.Double.isFinite, h1000]
  · simp only [Fp.Double.isFinite, Fp.Double.ofRat_two_pow_neg60, decide_True]
  · simp only [Fp.SavingsAccount.new, Fp.Account.parameterized, Fp.SavingsAccount.withdraw,
      hsub]
    simp [Fp.Double.ge, Fp.Double.le]
  · simp only [Fp.SavingsAccount.new, Fp.Account.parameterized, Fp.SavingsAccount.withdraw,
      hsub]
    simp [Fp.Double.ge, Fp.Double.le]

/-- Witness of C1: the driver's `savings1`, withdrawing 500. -/
theorem fp_savings_withdraw_contract_witness :
    Fp.Main.savings1.minimumBalance = Fp.Double.finite 1000 ∧
    ((Fp.Main.savings1.withdraw (Fp.Double.finite 500)).1 = true ↔
      Fp.Double.ge (Fp.Double.sub Fp.Main.savings1.balance (Fp.Double.finite 500))
        (Fp.Double.finite 1000) = true) :=
  ⟨rfl, (fp_savings_withdraw_contract Fp.Main.savings1 (Fp.Double.finite 500) rfl).1⟩

/-- Claim C2, amended. For a checking account whose transaction counter can still be
incremented within `int`, `withdraw(amount)` returns true exactly when `amount > 0` and
the `double` sum `balance + overdraftLimit` (the exact sum rounded to the nearest
`double`) is `>= amount`; a successful withdraw sets the balance to the `double`
difference `balance - amount` and raises the counter by 1; `deposit` of a positive amount
raises the counter by 1; a failed withdraw leaves the whole object unchanged. -/
theorem fp_checking_withdraw_contract (c : Fp.CheckingAccount) (amount : Fp.Double)
    (hlo : INT_MIN ≤ c.transactionCount) (hhi : c.transactionCount < INT_MAX) :
    ((c.withdraw amount).1 = true ↔
      Fp.Double.gt amount (Fp.Double.finite 0) = true ∧
      Fp.Double.ge (Fp.Double.add c.balance c.overdraftLimit) amount = true) ∧
    ((c.withdraw amount).1 = true →
      (c.withdraw amount).2.balance = Fp.Double.sub c.balance amount ∧
      (c.withdraw amount).2.transactionCount = c.transactionCount + 1) ∧
    (Fp.Double.gt amount (Fp.Double.finite 0) = true →
      (c.deposit amount).transactionCount = c.transactionCount + 1) ∧
    ((c.withdraw amount).1 = false →
      (c.withdraw amount).2.balance = c.balance ∧
      (c.withdraw amount).2.transactionCount = c.transactionCount ∧
      (c.withdraw amount).2 = c) := by
  have hw : wrapInt (c.transactionCount + 1) = c.transactionCount + 1 :=
    wrapInt_of_inRange _ (by unfold INT_MIN at *; omega) (by unfold INT_MAX at *; omega)
  refine ⟨?_, ?_, ?_, ?_⟩
  · unfold Fp.CheckingAccount.withdraw
    cases h1 : Fp.Double.gt amount (Fp.Double.finite 0) <;>
      cases h2 : Fp.Double.ge (Fp.Double.add c.balance c.overdraftLimit) amount <;> simp
  · unfold Fp.CheckingAccount.withdraw
    cases h1 : Fp.Double.gt amount (Fp.Double.finite 0) <;>
      cases h2 : Fp.Double.ge (Fp.Double.add c.balance c.overdraftLimit) amount <;>
      simp [hw]
  · intro _
    show wrapInt ((c.baseDeposit amount).transactionCount + 1) = c.transactionCount + 1
    exact hw
  · unfold Fp.CheckingAccount.withdraw
    cases h1 : Fp.Double.gt amount (Fp.Double.finite 0) <;>
      cases h2 : Fp.Double.ge (Fp.Double.add c.balance c.overdraftLimit) amount <;> simp

/-- Claim C2 as stated fails: on balance `2^53` with overdraft limit 3 the withdrawal of
`2^53 + 4` is accepted, although the exact sum `2^53 + 3` is below the amount (the
`double` sum rounds up to `2^53 + 4`); the balance becomes -4. The three operands are
`double` values. -/
theorem fp_checking_withdraw_rounds :
    Fp.Double.isFinite (Fp.Double.finite 9007199254740992) = true ∧
    Fp.Double.isFinite (Fp.Double.finite 3) = true ∧
    Fp.Double.isFinite (Fp.Double.finite 9007199254740996) = true ∧
    ((Fp.CheckingAccount.new 2001 "Bob" (Fp.Double.finite 9007199254740992)
      (Fp.Double.finite 3) 0).1.withdraw (Fp.Double.finite 9007199254740996)).1 = true ∧
    ¬ ((0 : ℚ) < 9007199254740996 ∧ (9007199254740992 : ℚ) + 3 ≥ 9007199254740996) ∧
    ((Fp.CheckingAccount.new 2001 "Bob" (Fp.Double.finite 9007199254740992)
      (Fp.Double.finite 3) 0).1.withdraw (Fp.Double.finite 9007199254740996)).2.balance =
        Fp.Double.finite (-4) := by
  have hadd : Fp.Double.add (Fp.Double.finite 9007199254740992) (Fp.Double.finite 3) =
      Fp.Double.finite 9007199254740996 := Fp.Double.ofRat_two53_add_three
  have hsub : Fp.Double.sub (Fp.Double.finite 9007199254740992)
      (Fp.Double.finite 9007199254740996) = Fp.Double.finite (-4) := by
    show Fp.Double.ofRat (9007199254740992 + -9007199254740996) = _
    have hx : (9007199254740992 + -9007199254740996 : ℚ) = -4 := by norm_num
    rw [hx]
    exact Fp.Double.ofRat_of_int (-4) (-4) (by norm_num) (by norm_num)
  have h3 : Fp.Double.ofRat 3 = Fp.Double.finite 3 :=
    Fp.Double.ofRat_of_int 3 3 (by norm_num) (by norm_num)
  refine ⟨?_, ?_, ?_, ?_, by norm_num, ?_⟩
  · simp only [Fp.Double.isFinite, Fp.Double.ofRat_two53, decide_True]
  · simp only [Fp.Double.isFinite, h3, decide_True]
  · simp only [Fp.Double.isFinite, Fp.Double.ofRat_two53_add_four, decide_True]
  · simp only [Fp.CheckingAccount.new, Fp.Account.parameterized,
      Fp.CheckingAccount.withdraw, hadd]
    simp [Fp.Double.gt, Fp.Double.lt, Fp.Double.ge, Fp.Double.le]
  · simp only [Fp.CheckingAccount.new, Fp.Account.parameterized,
      Fp.CheckingAccount.withdraw, hadd, hsub]
    simp [Fp.Double.gt, Fp.Double.lt, Fp.Double.ge, Fp.Double.le]

/-- Witness of C2: the driver's `checking1`, withdrawing 3200. -/
theorem fp_checking_withdraw_contract_witness :
    (INT_MIN ≤ Fp.Main.checking1.transactionCount ∧
      Fp.Main.checking1.transactionCount < INT_MAX) ∧
    ((Fp.Main.checking1.withdraw (Fp.Double.finite 3200)).1 = true ↔
      Fp.Double.gt (Fp.Double.finite 3200) (Fp.Double.finite 0) = true ∧
      Fp.Double.ge (Fp.Double.add Fp.Main.checking1.balance Fp.Main.checking1.overdraftLimit)
        (Fp.Double.finite 3200) = true) :=
  ⟨⟨by decide, by decide⟩,
   (fp_checking_withdraw_contract Fp.Main.checking1 (Fp.Double.finite 3200) (by decide)
     (by decide)).1⟩

/-- Claim C3, amended. The base `Account::withdraw(amount)` returns true exactly when
`amount > 0` and `balance >= amount`; on true the balance becomes the `double` difference
`balance - amount` (the exact difference rounded to the nearest `double`, equal to it
when the exact difference of finite operands is a `double`); on false the object is
unchanged. -/
theorem fp_account_withdraw_contract (a : Fp.Account) (amount : Fp.Double) :
    ((a.withdraw amount).1 = true ↔
      Fp.Double.gt amount (Fp.Double.finite 0) = true ∧
      Fp.Double.ge a.balance amount = true) ∧
    ((a.withdraw amount).1 = true →
      (a.withdraw amount).2.balance = Fp.Double.sub a.balance amount) ∧
    ((a.withdraw amount).1 = false →
      (a.withdraw amount).2.balance = a.balance ∧ (a.withdraw amount).2 = a) ∧
    (∀ b x : ℚ, a.balance = Fp.Double.finite b → amount = Fp.Double.finite x →
      Fp.Double.ofRat (b - x) = Fp.Double.finite (b - x) →
      ((a.withdraw amount).1 = true ↔ x > 0 ∧ b ≥ x) ∧
      ((a.withdraw amount).1 = true →
        (a.withdraw amount).2.balance = Fp.Double.finite (b - x))) := by
  have hflag : (a.withdraw amount).1 = true ↔
      Fp.Double.gt amount (Fp.Double.finite 0) = true ∧
      Fp.Double.ge a.balance amount = true := by
    unfold Fp.Account.withdraw
    cases h1 : Fp.Double.gt amount (Fp.Double.finite 0) <;>
      cases h2 : Fp.Double.ge a.balance amount <;> simp
  have hbal : (a.withdraw amount).1 = true →
      (a.withdraw amount).2.balance = Fp.Double.sub a.balance amount := by
    unfold Fp.Account.withdraw
    cases h1 : Fp.Double.gt amount (Fp.Double.finite 0) <;>
      cases h2 : Fp.Double.ge a.balance amount <;> simp
  refine ⟨hflag, hbal, ?_, ?_⟩
  · unfold Fp.Account.withdraw
    cases h1 : Fp.Double.gt amount (Fp.Double.finite 0) <;>
      cases h2 : Fp.Double.ge a.balance amount <;> simp
  · intro b x hb hx hexact
    have hsub : Fp.Double.sub a.balance amount = Fp.Double.finite (b - x) := by
      rw [hb, hx]
      show Fp.Double.ofRat (b + -x) = _
      rw [← sub_eq_add_neg, hexact]
    constructor
    · rw [hflag, hb, hx]
      simp [Fp.Double.gt, Fp.Double.lt, Fp.Double.ge, Fp.Double.le]
    · intro hok
      rw [hbal hok, hsub]

/-- Claim C3 as stated fails: on balance `1e16` the base `withdraw(1.0)` returns true and
leaves the balance at `1e16`, not at the exact difference. Both operands are `double`
values. -/
theorem fp_account_withdraw_rounds :
    Fp.Double.isFinite (Fp.Double.finite 10000000000000000) = true ∧
    Fp.Double.isFinite (Fp.Double.finite 1) = true ∧
    ((Fp.Account.parameterized 1001 "Alice" (Fp.Double.finite 10000000000000000) 0).1.withdraw
      (Fp.Double.finite 1)).1 = true ∧
    ((Fp.Account.parameterized 1001 "Alice" (Fp.Double.finite 10000000000000000) 0).1.withdraw
      (Fp.Double.finite 1)).2.balance = Fp.Double.finite 10000000000000000 ∧
    (10000000000000000 : ℚ) ≠ 10000000000000000 - 1 := by
  have hsub : Fp.Double.sub (Fp.Double.finite 10000000000000000) (Fp.Double.finite 1) =
      Fp.Double.finite 10000000000000000 := Fp.Double.ofRat_ten16_sub_one
  have h1 : Fp.Double.ofRat 1 = Fp.Double.finite 1 :=
    Fp.Double.ofRat_of_int 1 1 (by norm_num) (by norm_num)
  refine ⟨?_, ?_, ?_, ?_, by norm_num⟩
  · simp only [Fp.Double.isFinite, Fp.Double.ofRat_ten16, decide_True]
  · simp only [Fp.Double.isFinite, h1, decide_True]
  · simp only [Fp.Account.parameterized, Fp.Account.withdraw, hsub]
    simp [Fp.Double.gt, Fp.Double.lt, Fp.Double.ge, Fp.Double.le]
  · simp only [Fp.Account.parameterized, Fp.Account.withdraw, hsub]
    simp [Fp.Double.gt, Fp.Double.lt, Fp.Double.ge, Fp.Double.le]

/-- Witness of C3: the `Account` part of the driver's `savings1`, asked for 7000. -/
theorem fp_account_withdraw_contract_witness :
    (Fp.Main.savings1.toAccount.withdraw (Fp.Double.finite 7000)).1 = true ↔
      Fp.Double.gt (Fp.Double.finite 7000) (Fp.Double.finite 0) = true ∧
      Fp.Double.ge Fp.Main.savings1.toAccount.balance (Fp.Double.finite 7000) = true :=
  (fp_account_withdraw_contract Fp.Main.savings1.toAccount (Fp.Double.finite 7000)).1

/-- Claim C4, amended. For `d > 0`, every deposit form on every variant sets the balance
to the `double` sum `balance + d` (the exact sum rounded to the nearest `double`): the
one- and two-argument `Account::deposit` on a base, savings, checking or premium object
(called directly or through an `Account*`), and `CheckingAccount::deposit`. When the
exact sum `b + x` of finite operands is itself a `double`, the new balance is `b + x`. -/
theorem fp_deposit_positive_adds (d : Fp.Double) (desc : String)
    (hd : Fp.Double.gt d (Fp.Double.finite 0) = true) (a : Fp.Account)
    (s : Fp.SavingsAccount) (c : Fp.CheckingAccount) (p : Fp.PremiumAccount)
    (r : Fp.AccountRef) :
    (a.deposit d).balance = Fp.Double.add a.balance d ∧
    (a.depositDesc d desc).balance = Fp.Double.add a.balance d ∧
    (s.deposit d).balance = Fp.Double.add s.balance d ∧
    (s.depositDesc d desc).balance = Fp.Double.add s.balance d ∧
    (c.deposit d).balance = Fp.Double.add c.balance d ∧
    (c.baseDeposit d).balance = Fp.Double.add c.balance d ∧
    (c.depositDesc d desc).balance = Fp.Double.add c.balance d ∧
    (p.deposit d).balance = Fp.Double.add p.balance d ∧
    (p.depositDesc d desc).balance = Fp.Double.add p.balance d ∧
    (r.deposit d).getBalance = Fp.Double.add r.getBalance d ∧
    (r.depositDesc d desc).getBalance = Fp.Double.add r.getBalance d ∧
    (∀ b x : ℚ, a.balance = Fp.Double.finite b → d = Fp.Double.finite x →
      Fp.Double.ofRat (b + x) = Fp.Double.finite (b + x) →
      (a.deposit d).balance = Fp.Double.finite (b + x) ∧
      (a.depositDesc d desc).balance = Fp.Double.finite (b + x)) := by
  have hbase : ∀ x : Fp.Account, (x.deposit d).balance = Fp.Double.add x.balance d := by
    intro x
    simp [Fp.Account.deposit, hd]
  have hdesc : ∀ x : Fp.Account,
      (x.depositDesc d desc).balance = Fp.Double.add x.balance d := by
    intro x
    simp [Fp.Account.depositDesc, hd]
  refine ⟨hbase a, hdesc a, hbase _, hdesc _, hbase _, hbase _, hdesc _, hbase _, hdesc _,
    ?_, ?_, ?_⟩
  · cases r with
    | savings x => exact hbase _
    | checking x => exact hbase _
    | premium x => exact hbase _
  · cases r with
    | savings x => exact hdesc _
    | checking x => exact hdesc _
    | premium x => exact hdesc _
  · intro b x hb hx hexact
    rw [hbase a, hdesc a, hb, hx]
    exact ⟨hexact, hexact⟩

/-- Claim C4 as stated fails: `deposit(1.0)`, in either form, on balance `2^53` leaves the
balance at `2^53`, not at `2^53 + 1`. Both operands are `double` values. -/
theorem fp_deposit_rounds :
    Fp.Double.isFinite (Fp.Double.finite 9007199254740992) = true ∧
    Fp.Double.isFinite (Fp.Double.finite 1) = true ∧
    Fp.Double.gt (Fp.Double.finite 1) (Fp.Double.finite 0) = true ∧
    ((Fp.SavingsAccount.new 1001 "Alice" (Fp.Double.finite 9007199254740992)
      (Fp.Double.finite 4.5) 0).1.deposit (Fp.Double.finite 1)).balance =
        Fp.Double.finite 9007199254740992 ∧
    ((Fp.SavingsAccount.new 1001 "Alice" (Fp.Double.finite 9007199254740992)
      (Fp.Double.finite 4.5) 0).1.depositDesc (Fp.Double.finite 1) "Salary").balance =
        Fp.Double.finite 9007199254740992 ∧
    (9007199254740992 : ℚ) ≠ 9007199254740992 + 1 := by
  have hadd : Fp.Double.add (Fp.Double.finite 9007199254740992) (Fp.Double.finite 1) =
      Fp.Double.finite 9007199254740992 := Fp.Double.ofRat_two53_add_one
  have h1 : Fp.Double.ofRat 1 = Fp.Double.finite 1 :=
    Fp.Double.ofRat_of_int 1 1 (by norm_num) (by norm_num)
  have hgt : Fp.Double.gt (Fp.Double.finite 1) (Fp.Double.finite 0) = true := by
    simp [Fp.Double.gt, Fp.Double.lt]
  refine ⟨?_, ?_, hgt, ?_, ?_, by norm_num⟩
  · simp only [Fp.Double.isFinite, Fp.Double.ofRat_two53, decide_True]
  · simp only [Fp.Double.isFinite, h1, decide_True]
  · simp only [Fp.SavingsAccount.new, Fp.Account.parameterized, Fp.SavingsAccount.deposit,
      Fp.Account.deposit, hgt, if_true, hadd]
  · simp only [Fp.SavingsAccount.new, Fp.Account.parameterized,
      Fp.SavingsAccount.depositDesc, Fp.Account.depositDesc, hgt, if_true, hadd]

/-- Witness of C4: the driver's three objects, depositing 1000 with description "Salary". -/
theorem fp_deposit_positive_adds_witness :
    Fp.Double.gt (Fp.Double.finite 1000) (Fp.Double.finite 0) = true ∧
    (Fp.Main.savings1.deposit (Fp.Double.finite 1000)).balance =
      Fp.Double.add Fp.Main.savings1.balance (Fp.Double.finite 1000) ∧
    (Fp.Main.checking1.deposit (Fp.Double.finite 1000)).balance =
      Fp.Double.add Fp.Main.checking1.balance (Fp.Double.finite 1000) :=
  ⟨by simp [Fp.Double.gt, Fp.Double.lt],
   (fp_deposit_positive_adds (Fp.Double.finite 1000) "Salary"
     (by simp [Fp.Double.gt, Fp.Double.lt]) Fp.Main.savings1.toAccount Fp.Main.savings1
     Fp.Main.checking1 Fp.Main.premium1 (Fp.AccountRef.checking Fp.Main.checking1)).2.2.1,
   (fp_deposit_positive_adds (Fp.Double.finite 1000) "Salary"
     (by simp [Fp.Double.gt, Fp.Double.lt]) Fp.Main.savings1.toAccount Fp.Main.savings1
     Fp.Main.checking1 Fp.Main.premium1
     (Fp.AccountRef.checking Fp.Main.checking1)).2.2.2.2.1⟩

/-! ## Interest over `double` -/

/-- Balance after the two-argument `deposit` over `double`, by cases on the guard. -/
theorem Fp.Account.depositDesc_balance_eq (a : Fp.Account) (amount : Fp.Double)
    (d : String) :
    (a.depositDesc amount d).balance =
      (if Fp.Double.gt amount (Fp.Double.finite 0) = true then
        Fp.Double.add a.balance amount else a.balance) := by
  unfold Fp.Account.depositDesc
  cases h : Fp.Double.gt amount (Fp.Double.finite 0) <;> simp

/-- Adding a positive amount to a finite `double` never gives less: rounding to nearest
is monotone and leaves a `double` as it is. -/
theorem Fp.Double.le_add_of_pos (b amount : Fp.Double) (hb : b.isFinite = true)
    (hpos : Fp.Double.gt amount (Fp.Double.finite 0) = true) :
    Fp.Double.le b (Fp.Double.add b amount) = true := by
  cases b with
  | finite q =>
    have hq : Fp.Double.ofRat q = Fp.Double.finite q := by
      simpa [Fp.Double.isFinite] using hb
    cases amount with
    | finite x =>
      have hx : 0 < x := by simpa [Fp.Double.gt, Fp.Double.lt] using hpos
      have hmono := Fp.Double.ofRat_mono (show q ≤ q + x by linarith)
      rw [hq] at hmono
      exact hmono
    | posInf => rfl
    | negInf => simp [Fp.Double.gt, Fp.Double.lt] at hpos
    | nan => simp [Fp.Double.gt, Fp.Double.lt] at hpos
  | posInf => simp [Fp.Double.isFinite] at hb
  | negInf => simp [Fp.Double.isFinite] at hb
  | nan => simp [Fp.Double.isFinite] at hb

/-- Adding a positive amount to a `double` never gives a value below it (the result is a
NaN when the two are opposite infinities). -/
theorem Fp.Double.not_lt_add_of_pos (b amount : Fp.Double) (hb : b.isDouble = true)
    (hpos : Fp.Double.gt amount (Fp.Double.finite 0) = true) :
    Fp.Double.lt (Fp.Double.add b amount) b = false := by
  cases b with
  | finite q =>
    have hfin : (Fp.Double.finite q).isFinite = true := hb
    have hle := Fp.Double.le_add_of_pos (Fp.Double.finite q) amount hfin hpos
    cases hsum : Fp.Double.add (Fp.Double.finite q) amount with
    | finite r =>
      rw [hsum] at hle
      have hqr : q ≤ r := by simpa [Fp.Double.le] using hle
      simp only [Fp.Double.lt, decide_eq_false_iff_not, not_lt]
      exact hqr
    | posInf => rfl
    | negInf =>
      rw [hsum] at hle
      simp [Fp.Double.le] at hle
    | nan => rfl
  | posInf =>
    cases amount <;> simp_all [Fp.Double.add, Fp.Double.lt, Fp.Double.gt]
  | negInf =>
    cases amount <;> simp_all [Fp.Double.add, Fp.Double.lt, Fp.Double.gt]
  | nan =>
    cases amount <;> simp_all [Fp.Double.add, Fp.Double.lt, Fp.Double.gt]

/-- No `double` compares `<` to itself. -/
theorem Fp.Double.lt_self_eq_false (b : Fp.Double) : Fp.Double.lt b b = false := by
  cases b <;> simp [Fp.Double.lt]

/-- A finite `double` compares `<=` to itself. -/
theorem Fp.Double.le_self_of_isFinite (b : Fp.Double) (hb : b.isFinite = true) :
    Fp.Double.le b b = true := by
  cases b <;> simp_all [Fp.Double.isFinite, Fp.Double.le]

/-- Claim C7, amended. `PremiumAccount::calculateInterest()` returns the `double` value of
`balance*rate/100 + balance*bonusRate/100`, every operation rounded to the nearest
`double`, for the balance, inherited rate and bonus rate at the time of the call, also
right after `setInterestRate` (which stores a rate `>= 0` and ignores any other) and when
called through an `Account*`; both parts are taken off the same balance; the object is
left as it was. -/
theorem fp_premium_calculateInterest_formula (p : Fp.PremiumAccount) (rate : Fp.Double) :
    p.calculateInterest.1 =
      Fp.Double.add
        (Fp.Double.div (Fp.Double.mul p.balance p.interestRate) (Fp.Double.finite 100))
        (Fp.Double.div (Fp.Double.mul p.balance p.bonusRate) (Fp.Double.finite 100)) ∧
    (p.setInterestRate rate).calculateInterest.1 =
      Fp.Double.add
        (Fp.Double.div
          (Fp.Double.mul p.balance
            (if Fp.Double.ge rate (Fp.Double.finite 0) = true then rate else p.interestRate))
          (Fp.Double.finite 100))
        (Fp.Double.div (Fp.Double.mul p.balance p.bonusRate) (Fp.Double.finite 100)) ∧
    (Fp.AccountRef.premium p).calculateInterest.1 = p.calculateInterest.1 ∧
    p.calculateInterest.2 = p := by
  refine ⟨rfl, ?_, rfl, rfl⟩
  unfold Fp.PremiumAccount.setInterestRate Fp.SavingsAccount.setInterestRate
  cases h : Fp.Double.ge rate (Fp.Double.finite 0)
  · simp only [Bool.false_eq_true, if_false]
    rfl
  · simp only [if_true]
    rfl

/-- Claim C7 as stated fails: for balance 1, rate 1 and bonus rate 0 the returned interest
is the `double` nearest to 0.01, which is not `1*1/100 + 1*0/100 = 1/100`. -/
theorem fp_premium_calculateInterest_rounds :
    (Fp.PremiumAccount.new 3001 "Charlie" (Fp.Double.finite 1) (Fp.Double.finite 1)
      (Fp.Double.finite 0) 0).1.calculateInterest.1 =
        Fp.Double.finite (5764607523034235 / 576460752303423488) ∧
    (5764607523034235 / 576460752303423488 : ℚ) ≠ 1 * 1 / 100 + 1 * 0 / 100 := by
  have h1 : Fp.Double.ofRat 1 = Fp.Double.finite 1 :=
    Fp.Double.ofRat_of_int 1 1 (by norm_num) (by norm_num)
  have h0 : Fp.Double.ofRat 0 = Fp.Double.finite 0 :=
    Fp.Double.ofRat_of_int 0 0 (by norm_num) (by norm_num)
  have hbase : Fp.Double.div (Fp.Double.mul (Fp.Double.finite 1) (Fp.Double.finite 1))
      (Fp.Double.finite 100) = Fp.Double.finite (5764607523034235 / 576460752303423488) := by
    simp only [Fp.Double.mul, mul_one, h1, Fp.Double.div]
    norm_num
    exact Fp.Double.ofRat_hundredth
  have hbonus : Fp.Double.div (Fp.Double.mul (Fp.Double.finite 1) (Fp.Double.finite 0))
      (Fp.Double.finite 100) = Fp.Double.finite 0 := by
    simp only [Fp.Double.mul, mul_zero, h0, Fp.Double.div]
    norm_num
    exact h0
  refine ⟨?_, by norm_num⟩
  simp only [Fp.PremiumAccount.new, Fp.SavingsAccount.new, Fp.Account.parameterized,
    Fp.PremiumAccount.calculateInterest, Fp.Account.getBalance,
    Fp.SavingsAccount.getInterestRate, hbase, hbonus, Fp.Double.add, add_zero]
  exact Fp.Double.ofRat_nearest_hundredth

/-- The `double` nearest to `1 + 0.01` taken on the `double` nearest to 0.01. -/
theorem Fp.Double.ofRat_one_add_nearest_hundredth :
    Fp.Double.ofRat (1 + 5764607523034235 / 576460752303423488) =
      Fp.Double.finite (4548635623644201 / 4503599627370496) := by
  have hn : Fp.Double.roundHalfEven (((1 : ℚ) + 5764607523034235 / 576460752303423488) /
      (2 : ℚ) ^ ((0 : ℤ) - 52)) = 4548635623644201 := by
    apply Fp.Double.roundHalfEven_eq_of_abs_lt
    rw [abs_lt]
    constructor <;> norm_num
  have h := Fp.Double.ofRat_eq_of_pos (1 + 5764607523034235 / 576460752303423488) 0
    4548635623644201 (by norm_num) (by norm_num) (by norm_num) (by norm_num) hn (by norm_num)
  rw [h]
  norm_num

/-- The balance of the driver's `premium1` is a finite `double`. -/
theorem Fp.Main.premium1_balance_isFinite :
    (Fp.AccountRef.premium Fp.Main.premium1).getBalance.isFinite = true := by
  show Fp.Double.isFinite (Fp.Double.finite 10000) = true
  simp only [Fp.Double.isFinite,
    Fp.Double.ofRat_of_int 10000 10000 (by norm_num) (by norm_num), decide_True]

/-- Claim C8, amended. `Bank::processInterest` takes the interest of the dynamic class of
the object (savings `balance*rate/100`, checking `balance*0.5/100`, premium
`balance*rate/100 + balance*bonusRate/100`, every operation rounded to the nearest
`double`) and deposits it: the balance afterwards is the `double` sum
`balance + interest` when the interest is positive and the old balance otherwise; the
balance never goes down: the balance afterwards never compares below the balance before,
and compares at or above it when the balance is finite. -/
theorem fp_bank_processInterest_balance (bank : Fp.Bank) (s : Fp.SavingsAccount)
    (c : Fp.CheckingAccount) (p : Fp.PremiumAccount) (r : Fp.AccountRef) :
    (Fp.AccountRef.savings s).calculateInterest.1 =
      Fp.Double.div (Fp.Double.mul s.balance s.interestRate) (Fp.Double.finite 100) ∧
    (Fp.AccountRef.checking c).calculateInterest.1 =
      Fp.Double.div (Fp.Double.mul c.balance (Fp.Double.finite 0.5)) (Fp.Double.finite 100) ∧
    (Fp.AccountRef.premium p).calculateInterest.1 =
      Fp.Double.add
        (Fp.Double.div (Fp.Double.mul p.balance p.interestRate) (Fp.Double.finite 100))
        (Fp.Double.div (Fp.Double.mul p.balance p.bonusRate) (Fp.Double.finite 100)) ∧
    (bank.processInterest r).getBalance =
      (if Fp.Double.gt r.calculateInterest.1 (Fp.Double.finite 0) = true then
        Fp.Double.add r.getBalance r.calculateInterest.1
       else r.getBalance) ∧
    (r.getBalance.isDouble = true →
      Fp.Double.lt (bank.processInterest r).getBalance r.getBalance = false) ∧
    (r.getBalance.isFinite = true →
      Fp.Double.le r.getBalance (bank.processInterest r).getBalance = true) := by
  have hkey : (bank.processInterest r).getBalance =
      (if Fp.Double.gt r.calculateInterest.1 (Fp.Double.finite 0) = true then
        Fp.Double.add r.getBalance r.calculateInterest.1
       else r.getBalance) := by
    cases r with
    | savings x =>
      exact Fp.Account.depositDesc_balance_eq x.toAccount x.calculateInterest.1
        "Interest Credit"
    | checking x =>
      exact Fp.Account.depositDesc_balance_eq x.toAccount x.calculateInterest.1
        "Interest Credit"
    | premium x =>
      exact Fp.Account.depositDesc_balance_eq x.toAccount x.calculateInterest.1
        "Interest Credit"
  refine ⟨rfl, rfl, rfl, hkey, ?_, ?_⟩
  · intro hdbl
    rw [hkey]
    by_cases h : Fp.Double.gt r.calculateInterest.1 (Fp.Double.finite 0) = true
    · rw [if_pos h]
      exact Fp.Double.not_lt_add_of_pos _ _ hdbl h
    · rw [if_neg h]
      exact Fp.Double.lt_self_eq_false _
  · intro hfin
    rw [hkey]
    by_cases h : Fp.Double.gt r.calculateInterest.1 (Fp.Double.finite 0) = true
    · rw [if_pos h]
      exact Fp.Double.le_add_of_pos _ _ hfin h
    · rw [if_neg h]
      exact Fp.Double.le_self_of_isFinite _ hfin

/-- Claim C8 as stated fails: for a savings account with balance 1 and rate 1 the interest
is the `double` nearest to 0.01, not `1*1/100`, and the balance after `processInterest`
is the `double` nearest to 1.01, not `1 + 1/100`. -/
theorem fp_bank_processInterest_rounds :
    (Fp.AccountRef.savings (Fp.SavingsAccount.new 1001 "Alice" (Fp.Double.finite 1)
      (Fp.Double.finite 1) 0).1).calculateInterest.1 =
        Fp.Double.finite (5764607523034235 / 576460752303423488) ∧
    (5764607523034235 / 576460752303423488 : ℚ) ≠ 1 * 1 / 100 ∧
    (Fp.Main.myBank.processInterest (Fp.AccountRef.savings
      (Fp.SavingsAccount.new 1001 "Alice" (Fp.Double.finite 1) (Fp.Double.finite 1)
        0).1)).getBalance =
        Fp.Double.finite (4548635623644201 / 4503599627370496) ∧
    (4548635623644201 / 4503599627370496 : ℚ) ≠ 1 + 1 * 1 / 100 := by
  have h1 : Fp.Double.ofRat 1 = Fp.Double.finite 1 :=
    Fp.Double.ofRat_of_int 1 1 (by norm_num) (by norm_num)
  have hint : Fp.Double.div (Fp.Double.mul (Fp.Double.finite 1) (Fp.Double.finite 1))
      (Fp.Double.finite 100) = Fp.Double.finite (5764607523034235 / 576460752303423488) := by
    simp only [Fp.Double.mul, mul_one, h1, Fp.Double.div]
    norm_num
    exact Fp.Double.ofRat_hundredth
  have hgt : Fp.Double.gt (Fp.Double.finite (5764607523034235 / 576460752303423488))
      (Fp.Double.finite 0) = true := by
    simp [Fp.Double.gt, Fp.Double.lt]
  refine ⟨?_, by norm_num, ?_, by norm_num⟩
  · simp only [Fp.SavingsAccount.new, Fp.Account.parameterized,
      Fp.AccountRef.calculateInterest, Fp.SavingsAccount.calculateInterest, hint]
  · simp only [Fp.SavingsAccount.new, Fp.Account.parameterized, Fp.Bank.processInterest,
      Fp.AccountRef.calculateInterest, Fp.SavingsAccount.calculateInterest, hint,
      Fp.AccountRef.depositDesc, Fp.SavingsAccount.depositDesc, Fp.Account.depositDesc,
      hgt, if_true, Fp.AccountRef.getBalance, Fp.AccountRef.toAccount,
      Fp.Account.getBalance, Fp.Double.add]
    exact Fp.Double.ofRat_one_add_nearest_hundredth

/-- Witness of C8: the driver's `premium1` as constructed (balance 10000). -/
theorem fp_bank_processInterest_balance_witness :
    (Fp.AccountRef.premium Fp.Main.premium1).getBalance.isFinite = true ∧
    Fp.Double.le (Fp.AccountRef.premium Fp.Main.premium1).getBalance
      (Fp.Main.myBank.processInterest
        (Fp.AccountRef.premium Fp.Main.premium1)).getBalance = true :=
  ⟨Fp.Main.premium1_balance_isFinite,
   (fp_bank_processInterest_balance Fp.Main.myBank Fp.Main.savings1 Fp.Main.checking1
     Fp.Main.premium1 (Fp.AccountRef.premium Fp.Main.premium1)).2.2.2.2.2
     Fp.Main.premium1_balance_isFinite⟩

/-! ## The overdraft bound over `double` -/

/-- Sum of two finite `double`s whose exact sum is an integer below `2^53`. -/
theorem Fp.Double.add_finite_of_int (a b r : ℚ) (n : ℤ) (hr : a + b = r) (hrn : r = (n : ℚ))
    (hn : |n| < 2 ^ 53) :
    Fp.Double.add (Fp.Double.finite a) (Fp.Double.finite b) = Fp.Double.finite r := by
  show Fp.Double.ofRat (a + b) = _
  rw [hr]
  exact Fp.Double.ofRat_of_int r n hrn hn

/-- Difference of two finite `double`s whose exact difference is an integer below `2^53`. -/
theorem Fp.Double.sub_finite_of_int (a b r : ℚ) (n : ℤ) (hr : a - b = r) (hrn : r = (n : ℚ))
    (hn : |n| < 2 ^ 53) :
    Fp.Double.sub (Fp.Double.finite a) (Fp.Double.finite b) = Fp.Double.finite r := by
  show Fp.Double.ofRat (a + -b) = _
  rw [← sub_eq_add_neg, hr]
  exact Fp.Double.ofRat_of_int r n hrn hn

/-- Product of two finite `double`s whose exact product is an integer below `2^53`. -/
theorem Fp.Double.mul_finite_of_int (a b r : ℚ) (n : ℤ) (hr : a * b = r) (hrn : r = (n : ℚ))
    (hn : |n| < 2 ^ 53) :
    Fp.Double.mul (Fp.Double.finite a) (Fp.Double.finite b) = Fp.Double.finite r := by
  show Fp.Double.ofRat (a * b) = _
  rw [hr]
  exact Fp.Double.ofRat_of_int r n hrn hn

/-- Quotient of two finite `double`s whose exact quotient is an integer below `2^53`. -/
theorem Fp.Double.div_finite_of_int (a b r : ℚ) (n : ℤ) (hb : b ≠ 0) (hr : a / b = r)
    (hrn : r = (n : ℚ)) (hn : |n| < 2 ^ 53) :
    Fp.Double.div (Fp.Double.finite a) (Fp.Double.finite b) = Fp.Double.finite r := by
  show (if b = 0 then _ else Fp.Double.ofRat (a / b)) = _
  rw [if_neg hb, hr]
  exact Fp.Double.ofRat_of_int r n hrn hn

/-- Claim C20, the part of the run that exists. Up to the interest loop of lines 333-336:
`savings1` holds 6000 after its two deposits and its withdrawal, `checking1` holds -200
after `withdraw(3200)` with one transaction counted; the loop computes 270 for `savings1`
and credits it (6270), computes -1 for `checking1` and credits nothing (-200), computes
700 for `premium1` and credits it (10700); the three constructions of lines 306-308 leave
`Account::totalAccounts` at 3. All figures are exact in `double`. -/
theorem fp_main_run_figures :
    Fp.Main.savings1Line324.1 = true ∧
    Fp.Main.savings1Line324.2.balance = Fp.Double.finite 6000 ∧
    Fp.Main.checking1Line325.1 = true ∧
    Fp.Main.checking1Line325.2.balance = Fp.Double.finite (-200) ∧
    Fp.Main.checking1Line325.2.transactionCount = 1 ∧
    (Fp.AccountRef.savings Fp.Main.savings1Line324.2).calculateInterest.1 =
      Fp.Double.finite 270 ∧
    (Fp.AccountRef.checking Fp.Main.checking1Line325.2).calculateInterest.1 =
      Fp.Double.finite (-1) ∧
    (Fp.AccountRef.premium Fp.Main.premium1).calculateInterest.1 = Fp.Double.finite 700 ∧
    Fp.Main.premium1.balance = Fp.Double.finite 10000 ∧
    Fp.Main.accountsLine336.map Fp.AccountRef.getBalance =
      [Fp.Double.finite 6270, Fp.Double.finite (-200), Fp.Double.finite 10700] ∧
    Fp.Main.accountsLine336 =
      [Fp.AccountRef.savings
         { accountNumber := 1001, accountHolderName := "Alice Johnson",
           balance := Fp.Double.finite 6270, interestRate := Fp.Double.finite 4.5,
           minimumBalance := Fp.Double.finite 1000 },
       Fp.AccountRef.checking
         { accountNumber := 2001, accountHolderName := "Bob Smith",
           balance := Fp.Double.finite (-200), overdraftLimit := Fp.Double.finite 500,
           transactionCount := 1 },
       Fp.AccountRef.premium
         { accountNumber := 3001, accountHolderName := "Charlie Brown",
           balance := Fp.Double.finite 10700, interestRate := Fp.Double.finite 5,
           minimumBalance := Fp.Double.finite 1000, bonusRate := Fp.Double.finite 2,
           hasConciergeService := true }] ∧
    Account.getTotalAccounts Fp.Main.premium1Built.2 = 3 := by
  have gt1000 : Fp.Double.gt (Fp.Double.finite 1000) (Fp.Double.finite 0) = true := by
    simp [Fp.Double.gt, Fp.Double.lt]
  have gt500 : Fp.Double.gt (Fp.Double.finite 500) (Fp.Double.finite 0) = true := by
    simp [Fp.Double.gt, Fp.Double.lt]
  have gt3200 : Fp.Double.gt (Fp.Double.finite 3200) (Fp.Double.finite 0) = true := by
    simp [Fp.Double.gt, Fp.Double.lt]
  have gt270 : Fp.Double.gt (Fp.Double.finite 270) (Fp.Double.finite 0) = true := by
    simp [Fp.Double.gt, Fp.Double.lt]
  have gt700 : Fp.Double.gt (Fp.Double.finite 700) (Fp.Double.finite 0) = true := by
    simp [Fp.Double.gt, Fp.Double.lt]
  have gtNeg1 : Fp.Double.gt (Fp.Double.finite (-1)) (Fp.Double.finite 0) = false := by
    simp [Fp.Double.gt, Fp.Double.lt]
  have ge6000 : Fp.Double.ge (Fp.Double.finite 6000) (Fp.Double.finite 1000) = true := by
    simp only [Fp.Double.ge, Fp.Double.le, decide_eq_true_eq]
    norm_num
  have ge3500 : Fp.Double.ge (Fp.Double.finite 3500) (Fp.Double.finite 3200) = true := by
    simp only [Fp.Double.ge, Fp.Double.le, decide_eq_true_eq]
    norm_num
  have a1 := Fp.Double.add_finite_of_int 5000 1000 6000 6000 (by norm_num) (by norm_num)
    (by norm_num)
  have a2 := Fp.Double.add_finite_of_int 6000 500 6500 6500 (by norm_num) (by norm_num)
    (by norm_num)
  have s1 := Fp.Double.sub_finite_of_int 6500 500 6000 6000 (by norm_num) (by norm_num)
    (by norm_num)
  have a3 := Fp.Double.add_finite_of_int 3000 500 3500 3500 (by norm_num) (by norm_num)
    (by norm_num)
  have s2 := Fp.Double.sub_finite_of_int 3000 3200 (-200) (-200) (by norm_num) (by norm_num)
    (by norm_num)
  have m1 := Fp.Double.mul_finite_of_int 6000 4.5 27000 27000 (by norm_num) (by norm_num)
    (by norm_num)
  have d1 := Fp.Double.div_finite_of_int 27000 100 270 270 (by norm_num) (by norm_num)
    (by norm_num) (by norm_num)
  have a4 := Fp.Double.add_finite_of_int 6000 270 6270 6270 (by norm_num) (by norm_num)
    (by norm_num)
  have m2 := Fp.Double.mul_finite_of_int (-200) 0.5 (-100) (-100) (by norm_num)
    (by norm_num) (by norm_num)
  have d2 := Fp.Double.div_finite_of_int (-100) 100 (-1) (-1) (by norm_num) (by norm_num)
    (by norm_num) (by norm_num)
  have m3 := Fp.Double.mul_finite_of_int 10000 5 50000 50000 (by norm_num) (by norm_num)
    (by norm_num)
  have d3 := Fp.Double.div_finite_of_int 50000 100 500 500 (by norm_num) (by norm_num)
    (by norm_num) (by norm_num)
  have m4 := Fp.Double.mul_finite_of_int 10000 2 20000 20000 (by norm_num) (by norm_num)
    (by norm_num)
  have d4 := Fp.Double.div_finite_of_int 20000 100 200 200 (by norm_num) (by norm_num)
    (by norm_num) (by norm_num)
  have a5 := Fp.Double.add_finite_of_int 500 200 700 700 (by norm_num) (by norm_num)
    (by norm_num)
  have a6 := Fp.Double.add_finite_of_int 10000 700 10700 10700 (by norm_num) (by norm_num)
    (by norm_num)
  have hs324 : Fp.Main.savings1Line324 =
      (true, { accountNumber := 1001, accountHolderName := "Alice Johnson",
               balance := Fp.Double.finite 6000, interestRate := Fp.Double.finite 4.5,
               minimumBalance := Fp.Double.finite 1000 }) := by
    simp only [Fp.Main.savings1Line324, Fp.Main.savings1Line316, Fp.Main.savings1Line315,
      Fp.Main.savings1, Fp.Main.savings1Built, Fp.SavingsAccount.new,
      Fp.Account.parameterized, Fp.SavingsAccount.deposit, Fp.SavingsAccount.depositDesc,
      Fp.Account.deposit, Fp.Account.depositDesc, Fp.SavingsAccount.withdraw, gt1000,
      gt500, if_true, a1, a2, s1, ge6000]
  have hc325 : Fp.Main.checking1Line325 =
      (true, { accountNumber := 2001, accountHolderName := "Bob Smith",
               balance := Fp.Double.finite (-200), overdraftLimit := Fp.Double.finite 500,
               transactionCount := 1 }) := by
    simp only [Fp.Main.checking1Line325, Fp.Main.checking1, Fp.Main.checking1Built,
      Fp.CheckingAccount.new, Fp.Account.parameterized, Fp.CheckingAccount.withdraw,
      gt3200, a3, ge3500, Bool.and_self, if_true, s2, wrapInt]
    norm_num
  have hp : Fp.Main.premium1 =
      { accountNumber := 3001, accountHolderName := "Charlie Brown",
        balance := Fp.Double.finite 10000, interestRate := Fp.Double.finite 5,
        minimumBalance := Fp.Double.finite 1000, bonusRate := Fp.Double.finite 2,
        hasConciergeService := true } := rfl
  have hi1 : (Fp.AccountRef.savings Fp.Main.savings1Line324.2).calculateInterest.1 =
      Fp.Double.finite 270 := by
    rw [hs324]
    simp only [Fp.AccountRef.calculateInterest, Fp.SavingsAccount.calculateInterest, m1, d1]
  have hi2 : (Fp.AccountRef.checking Fp.Main.checking1Line325.2).calculateInterest.1 =
      Fp.Double.finite (-1) := by
    rw [hc325]
    simp only [Fp.AccountRef.calculateInterest, Fp.CheckingAccount.calculateInterest, m2, d2]
  have hi3 : (Fp.AccountRef.premium Fp.Main.premium1).calculateInterest.1 =
      Fp.Double.finite 700 := by
    rw [hp]
    simp only [Fp.AccountRef.calculateInterest, Fp.PremiumAccount.calculateInterest,
      Fp.Account.getBalance, Fp.SavingsAccount.getInterestRate, m3, d3, m4, d4, a5]
  have hloop : Fp.Main.accountsLine336 =
      [Fp.AccountRef.savings
         { accountNumber := 1001, accountHolderName := "Alice Johnson",
           balance := Fp.Double.finite 6270, interestRate := Fp.Double.finite 4.5,
           minimumBalance := Fp.Double.finite 1000 },
       Fp.AccountRef.checking
         { accountNumber := 2001, accountHolderName := "Bob Smith",
           balance := Fp.Double.finite (-200), overdraftLimit := Fp.Double.finite 500,
           transactionCount := 1 },
       Fp.AccountRef.premium
         { accountNumber := 3001, accountHolderName := "Charlie Brown",
           balance := Fp.Double.finite 10700, interestRate := Fp.Double.finite 5,
           minimumBalance := Fp.Double.finite 1000, bonusRate := Fp.Double.finite 2,
           hasConciergeService := true }] := by
    simp only [Fp.Main.accountsLine336, Fp.Main.accounts, hs324, hc325, hp, List.map,
      Fp.Bank.processInterest, Fp.AccountRef.calculateInterest, Fp.AccountRef.depositDesc,
      Fp.SavingsAccount.calculateInterest, Fp.CheckingAccount.calculateInterest,
      Fp.PremiumAccount.calculateInterest, Fp.SavingsAccount.depositDesc,
      Fp.CheckingAccount.depositDesc, Fp.PremiumAccount.depositDesc,
      Fp.Account.depositDesc, Fp.Account.getBalance, Fp.SavingsAccount.getInterestRate,
      m1, d1, m2, d2, m3, d3, m4, d4, a5, gt270, gt700, gtNeg1, if_true,
      Bool.false_eq_true, if_false, a4, a6]
  refine ⟨?_, ?_, ?_, ?_, ?_, hi1, hi2, hi3, ?_, ?_, hloop, ?_⟩
  · rw [hs324]
  · rw [hs324]
  · rw [hc325]
  · rw [hc325]
  · rw [hc325]
  · rw [hp]
  · rw [hloop]
    rfl
  · simp only [Account.getTotalAccounts, Fp.Main.premium1Built, Fp.PremiumAccount.new,
      Fp.SavingsAccount.new, Fp.Account.parameterized, Fp.Main.checking1Built,
      Fp.CheckingAccount.new, Fp.Main.savings1Built, wrapInt]
    norm_num

end OopCode
